import Mathlib

/-!
Shallow embedding of the funnel orchestrator `runAnalysis` of the
shop-sim-ai repository (source file `src/unnamed/part_000`), together with
proofs about the scoring model, the finding classifier, the cart-success
heuristic and the error-handling paths.

The external page-automation capability (Stagehand) is modelled by an
environment record `AgentEnv`: one field per `init` / `act` / `extract` /
`goto` / `close` call site of the source, each an `Except String _` whose
`.error` case models the call throwing (thrown values are modelled by their
message string, matching the source's `e instanceof Error ? e.message :
'Unknown error'` extraction).  `extract` results are modelled as the
JSON-serialized observation text (the source always passes observations
through `JSON.stringify` before matching; the spec likewise requires the
observation to be serialized to text before any matching).  `page.url()`
reads and `new Date().toISOString()` timestamps are modelled by oracles
indexed by call count.  `Date.now()` is modelled as a non-decreasing wall
clock: the reading taken at add-to-cart success is `startMs + cartDeltaMs`.
-/

/-! ## String utilities mirroring the JavaScript operations used -/

/-- Pointwise prefix test on character lists. -/
def leadsWith : List Char → List Char → Bool
  | [], _ => true
  | _ :: _, [] => false
  | p :: ps, c :: cs => p == c && leadsWith ps cs

/-- Substring occurrence test on character lists. -/
def subList (pat : List Char) : List Char → Bool
  | [] => pat.isEmpty
  | c :: cs => leadsWith pat (c :: cs) || subList pat cs

/-- Embedding of JavaScript `s.includes(pat)`. -/
def incl (s pat : String) : Bool := subList pat.data s.data

/-- Proposition form of `incl`, used to state the cart-success heuristic. -/
def Contains (s pat : String) : Prop := incl s pat = true

/-- Embedding of JavaScript `s.toLowerCase()` (ASCII letters; the
byte-identical behaviour on the ASCII/already-lowercase inputs the claims
use). -/
def lowerStr (s : String) : String := String.mk (s.data.map Char.toLower)

/-- JSON.stringify of a plain string that contains no characters needing a
JSON escape: the string wrapped in double quotes.  Used to build the
stringified observations of the concrete scenarios. -/
def jsonQuote (s : String) : String := ("\"") ++ s ++ ("\"")

/-- Decimal digit-run parse, embedding `parseInt` on the digits captured by
the field-count regular expression. -/
def parseNatDigits (cs : List Char) : Nat :=
  cs.foldl (fun acc c => acc * 10 + (c.toNat - ('0').toNat)) 0

/-- One anchored attempt of the regular expression
`(\d+)\s*(form\s*)?fields?` at the head of the character list (pattern and
subject already lowercased, which is what the `i` flag amounts to here). -/
def fieldPatAt (cs : List Char) : Option Nat :=
  let digits := cs.takeWhile Char.isDigit
  if digits.isEmpty then none
  else
    let rest := (cs.drop digits.length).dropWhile (fun c => c.isWhitespace)
    if leadsWith (String.data ("field")) rest then some (parseNatDigits digits)
    else if leadsWith (String.data ("form")) rest then
      let rest2 := (rest.drop 4).dropWhile (fun c => c.isWhitespace)
      if leadsWith (String.data ("field")) rest2 then some (parseNatDigits digits)
      else none
    else none

/-- Leftmost match of the field-count regular expression, embedding
`analysisStr.match(/(\d+)\s*(form\s*)?fields?/i)` followed by
`parseInt(fieldMatch[1])`. -/
def findFieldCountAux : List Char → Option Nat
  | [] => none
  | c :: cs =>
    match fieldPatAt (c :: cs) with
    | some n => some n
    | none => findFieldCountAux cs

/-- String-level wrapper of `findFieldCountAux`. -/
def findFieldCount (s : String) : Option Nat := findFieldCountAux s.data

/-! ## Data model (source lines 1-34) -/

/-- Finding category, source union type
`'critical' | 'warning' | 'suggestion' | 'positive'`. -/
inductive FindingCategory where
  | critical
  | warning
  | suggestion
  | positive
deriving DecidableEq

/-- Run status, source union type `'completed' | 'failed'`. -/
inductive RunStatus where
  | completed
  | failed
deriving DecidableEq

/-- Source interface `Finding`. -/
structure Finding where
  id : String
  category : FindingCategory
  title : String
  description : String
  evidence : String
  recommendation : String
deriving DecidableEq

/-- Source interface `TimelineEvent` (the optional screenshot field is never
set by `runAnalysis` and is omitted). -/
structure TimelineEvent where
  timestamp : String
  action : String
  url : String
  success : Bool
deriving DecidableEq

/-- The `metrics` object of `AnalysisResult`. -/
structure Metrics where
  add_to_cart_success : Bool
  time_to_add_to_cart_seconds : Option Int
  checkout_reached : Bool
  checkout_form_filled : Bool
  drop_off_step : Option String
deriving DecidableEq

/-- Source interface `AnalysisResult`. -/
structure AnalysisResult where
  run_id : String
  store_url : String
  status : RunStatus
  score : Int
  metrics : Metrics
  findings : List Finding
  timeline : List TimelineEvent
  session_url : Option String
  error : Option String
deriving DecidableEq

/-! ## Static finding templates (copied verbatim from the source pushes) -/

/-- Source lines 115-123. -/
def homepageNoSearchFinding : Finding :=
  { id := "homepage-no-search", category := FindingCategory.warning,
    title := "Search Not Prominently Visible",
    description := "The search functionality is not clearly visible on the homepage",
    evidence := "Search bar/icon not easily found during homepage analysis",
    recommendation := "Add a prominent search bar in the header to help users find products quickly" }

/-- Source lines 128-135. -/
def homepageNavUnclearFinding : Finding :=
  { id := "homepage-navigation-unclear", category := FindingCategory.warning,
    title := "Navigation Could Be Clearer",
    description := "The navigation menu or page layout may be confusing to users",
    evidence := "Navigation described as unclear or cluttered during analysis",
    recommendation := "Simplify the navigation menu and ensure clear visual hierarchy" }

/-- Source lines 140-147. -/
def homepageProductsHiddenFinding : Finding :=
  { id := "homepage-products-hidden", category := FindingCategory.suggestion,
    title := "Products Not Immediately Visible",
    description := "Users may have difficulty finding products from the homepage",
    evidence := "Products or shop section not prominently displayed",
    recommendation := "Feature popular products on the homepage or make the shop section more prominent" }

/-- Source lines 153-160. -/
def homepagePopupsFinding : Finding :=
  { id := "homepage-intrusive-popups", category := FindingCategory.warning,
    title := "Intrusive Popups Detected",
    description := "Popups or overlays may be disrupting the user experience",
    evidence := "Intrusive popup/overlay detected on homepage",
    recommendation := "Delay popups or make them less intrusive to improve first impression" }

/-- Source lines 271-279. -/
def productPriceUnclearFinding : Finding :=
  { id := "product-price-unclear", category := FindingCategory.critical,
    title := "Product Price Not Clear",
    description := "The product price is not prominently displayed",
    evidence := "Price visibility issue detected on product page",
    recommendation := "Display the price in a larger font near the product title and add-to-cart button" }

/-- Source lines 283-291. -/
def productImagesPoorFinding : Finding :=
  { id := "product-images-poor", category := FindingCategory.warning,
    title := "Product Images Could Be Better",
    description := "Product images may not be high quality or zoomable",
    evidence := "Image quality or zoom functionality issues detected",
    recommendation := "Use high-resolution product images with zoom functionality" }

/-- Source lines 295-303. -/
def productAtcNotProminentFinding : Finding :=
  { id := "product-atc-not-prominent", category := FindingCategory.warning,
    title := "Add to Cart Button Not Prominent",
    description := "The add to cart button may not stand out enough",
    evidence := "Add to cart button prominence issue detected",
    recommendation := "Make the add to cart button larger with a contrasting color" }

/-- Source lines 307-314 and 316-323 (the same template is pushed from two
sites). -/
def productNoReviewsFinding : Finding :=
  { id := "product-no-reviews", category := FindingCategory.suggestion,
    title := "No Reviews/Ratings Visible",
    description := "Product reviews or ratings are not displayed",
    evidence := "No customer reviews or ratings found on product page",
    recommendation := "Display customer reviews and ratings to build trust and help purchase decisions" }

/-- Source lines 328-335. -/
def productNoStockInfoFinding : Finding :=
  { id := "product-no-stock-info", category := FindingCategory.suggestion,
    title := "Stock Availability Not Shown",
    description := "Product stock/availability information is not visible",
    evidence := "No stock availability indicator found on product page",
    recommendation := "Show stock availability to create urgency and prevent cart abandonment" }

/-- Source lines 340-347. -/
def productNoShippingInfoFinding : Finding :=
  { id := "product-no-shipping-info", category := FindingCategory.suggestion,
    title := "No Shipping Info on Product Page",
    description := "Shipping/delivery information is not visible on the product page",
    evidence := "No shipping information found before add to cart",
    recommendation := "Display estimated delivery time and shipping cost on the product page" }

/-- Source lines 515-522. -/
def cartNoFeedbackFinding : Finding :=
  { id := "cart-no-feedback", category := FindingCategory.warning,
    title := "No Clear Add-to-Cart Feedback",
    description := "Users may not realize the item was added to cart",
    evidence := "No clear visual feedback detected after adding to cart",
    recommendation := "Add a clear confirmation popup, animation, or notification when items are added to cart" }

/-- Source lines 527-534. -/
def cartNoShippingThresholdFinding : Finding :=
  { id := "cart-no-shipping-threshold", category := FindingCategory.suggestion,
    title := "No Free Shipping Threshold Message",
    description := "Missing opportunity to encourage larger orders with free shipping incentive",
    evidence := "No \"Add X more for free shipping\" message detected",
    recommendation := "Display how much more the customer needs to spend for free shipping" }

/-- Source lines 539-546. -/
def cartNoUpsellFinding : Finding :=
  { id := "cart-no-upsell", category := FindingCategory.suggestion,
    title := "No Upsell After Add to Cart",
    description := "Missing opportunity to increase order value with product suggestions",
    evidence := "No product recommendations shown after adding to cart",
    recommendation := "Show \"Frequently bought together\" or related products after add to cart" }

/-- Source lines 551-558. -/
def cartCheckoutUnclearFinding : Finding :=
  { id := "cart-checkout-unclear", category := FindingCategory.warning,
    title := "Checkout Button Not Prominent",
    description := "Users may have difficulty finding how to proceed to checkout",
    evidence := "Checkout button or path not prominently displayed",
    recommendation := "Make the checkout button more visible with contrasting colors" }

/-- Source lines 832-839. -/
def noDiscountFieldFinding : Finding :=
  { id := "no-discount-field", category := FindingCategory.suggestion,
    title := "No Discount Code Field Visible",
    description := "The checkout page does not prominently display a discount code field",
    evidence := "Discount/coupon field not found during checkout analysis",
    recommendation := "Add a visible discount code field to encourage conversions and allow marketing campaigns" }

/-- Source lines 843-850. -/
def noUpsellFinding : Finding :=
  { id := "no-upsell", category := FindingCategory.suggestion,
    title := "No Upsell/Cross-sell at Checkout",
    description := "The checkout page does not show product recommendations",
    evidence := "No upsell or cross-sell suggestions found at checkout",
    recommendation := "Add \"Frequently bought together\" or \"You might also like\" sections to increase average order value" }

/-- Source lines 854-861. -/
def noTrustBadgesFinding : Finding :=
  { id := "no-trust-badges", category := FindingCategory.warning,
    title := "No Trust Badges Visible",
    description := "Security and trust indicators are not prominently displayed",
    evidence := "No trust badges or security indicators found on checkout page",
    recommendation := "Add SSL badges, payment provider logos, and security seals to increase buyer confidence" }

/-- Source lines 865-872. -/
def noFreeShippingThresholdFinding : Finding :=
  { id := "no-free-shipping-threshold", category := FindingCategory.suggestion,
    title := "No Free Shipping Incentive",
    description := "No \"Add X more for free shipping\" message found",
    evidence := "Free shipping threshold messaging not detected",
    recommendation := "Display \"Add X TL more for free shipping\" to encourage larger orders" }

/-- Source lines 881-888. -/
def checkoutNoGuestFinding : Finding :=
  { id := "checkout-no-guest", category := FindingCategory.warning,
    title := "Guest Checkout Not Available",
    description := "Users are required to create an account or log in to checkout",
    evidence := "Login/account required before checkout completion",
    recommendation := "Offer guest checkout option to reduce friction and cart abandonment" }

/-- Source lines 896-903, evidence and description interpolate the parsed
field count. -/
def tooManyFieldsFinding (fieldCount : Nat) : Finding :=
  { id := "checkout-too-many-fields", category := FindingCategory.suggestion,
    title := "Too Many Form Fields",
    description := ("Checkout form has ") ++ toString fieldCount ++ (" fields which may cause abandonment"),
    evidence := toString fieldCount ++ (" form fields detected during checkout analysis"),
    recommendation := "Reduce form fields to essential information only (aim for 6-8 fields max)" }

/-- Source lines 912-919. -/
def checkoutNoProgressFinding : Finding :=
  { id := "checkout-no-progress", category := FindingCategory.suggestion,
    title := "No Progress Indicator",
    description := "Checkout does not show progress through the checkout steps",
    evidence := "No progress indicator or step tracker found",
    recommendation := "Add a progress bar or step indicator (e.g., \"Step 2 of 3\") to reduce anxiety" }

/-- Source lines 931-938. -/
def checkoutUnclearShippingFinding : Finding :=
  { id := "checkout-unclear-shipping", category := FindingCategory.warning,
    title := "Shipping Costs Not Clear",
    description := "Shipping costs are not clearly displayed before checkout completion",
    evidence := "Shipping cost visibility issue detected",
    recommendation := "Display shipping costs clearly and early to prevent surprise costs at checkout" }

/-- Source lines 945-952. -/
def checkoutHasErrorsFinding : Finding :=
  { id := "checkout-has-errors", category := FindingCategory.critical,
    title := "Form Validation Errors Present",
    description := "Error messages are visible on the checkout form",
    evidence := "Validation errors detected during checkout process",
    recommendation := "Review form validation and ensure error messages are helpful and actionable" }

/-- Source lines 361-368. -/
def noProductsFinding (msg : String) : Finding :=
  { id := "no-products", category := FindingCategory.critical,
    title := "Could not find products",
    description := "Unable to locate any clickable products on the page",
    evidence := ("Error: ") ++ msg,
    recommendation := "Ensure products are clearly visible and clickable on the homepage or add a shop/products link" }

/-- Source lines 587-594. -/
def addToCartSizeRequiredFinding (finalErrorStr : String) : Finding :=
  { id := "add-to-cart-size-required", category := FindingCategory.warning,
    title := "Size Selection UX Issue",
    description := "Product requires size selection but the options may not be obvious or easy to select",
    evidence := ("Error: ") ++ finalErrorStr.take 200,
    recommendation := "Make size/variant options more prominent and clearly indicate when selection is required before adding to cart" }

/-- Source lines 596-603. -/
def addToCartOutOfStockFinding (finalErrorStr : String) : Finding :=
  { id := "add-to-cart-out-of-stock", category := FindingCategory.warning,
    title := "Product Out of Stock",
    description := "The selected product appears to be out of stock",
    evidence := ("Error: ") ++ finalErrorStr.take 200,
    recommendation := "Show stock availability clearly and suggest similar in-stock products" }

/-- Source lines 605-612. -/
def addToCartLoginRequiredFinding (finalErrorStr : String) : Finding :=
  { id := "add-to-cart-login-required", category := FindingCategory.critical,
    title := "Login Required to Add to Cart",
    description := "Users must be logged in to add items to cart",
    evidence := ("Error: ") ++ finalErrorStr.take 200,
    recommendation := "Allow guest users to add items to cart without logging in" }

/-- Source lines 614-621, the fallback branch of the cart-failure
diagnosis. -/
def addToCartFailedDiagFinding (cartCheckStr finalErrorStr : String) : Finding :=
  { id := "add-to-cart-failed", category := FindingCategory.critical,
    title := "Add to Cart Failed",
    description := "Clicked add to cart but the cart remained empty",
    evidence := ("Cart check: ") ++ cartCheckStr ++ (", Error check: ") ++ finalErrorStr.take 200,
    recommendation := "Verify the add to cart button is functional and provides clear feedback" }

/-- Source lines 626-633, the catch handler of the add-to-cart stage. -/
def addToCartCatchFinding (msg : String) : Finding :=
  { id := "add-to-cart-failed", category := FindingCategory.critical,
    title := "Add to Cart Failed",
    description := "Could not add the product to cart",
    evidence := ("Error: ") ++ msg,
    recommendation := "Ensure the Add to Cart button is clearly visible and functional" }

/-- Source lines 965-972. -/
def checkoutFormIssuesFinding (msg : String) : Finding :=
  { id := "checkout-form-issues", category := FindingCategory.warning,
    title := "Checkout Form Difficulties",
    description := "The AI agent had difficulty filling out the checkout form",
    evidence := ("Error: ") ++ msg,
    recommendation := "Simplify checkout form, reduce required fields, and ensure clear labels" }

/-- Source lines 977-984. -/
def checkoutFailedFinding (msg : String) : Finding :=
  { id := "checkout-failed", category := FindingCategory.critical,
    title := "Could not reach checkout",
    description := "Failed to navigate to checkout after adding to cart",
    evidence := ("Error: ") ++ msg,
    recommendation := "Ensure checkout flow is accessible and intuitive" }

/-- Source lines 1020-1027. -/
def successfulAddToCartFinding : Finding :=
  { id := "successful-add-to-cart", category := FindingCategory.positive,
    title := "Add to Cart Works",
    description := "Products can be successfully added to the shopping cart",
    evidence := "Successfully added a product to cart during analysis",
    recommendation := "Continue maintaining this core functionality" }

/-- Source lines 1030-1037. -/
def fastAddToCartFinding (t : Int) : Finding :=
  { id := "fast-add-to-cart", category := FindingCategory.positive,
    title := "Fast Add-to-Cart Experience",
    description := ("Product was added to cart in ") ++ toString t ++ (" seconds"),
    evidence := ("Time from page load to cart: ") ++ toString t ++ ("s"),
    recommendation := "Keep maintaining this smooth experience" }

/-- Source lines 1042-1049. -/
def successfulCheckoutReachFinding : Finding :=
  { id := "successful-checkout-reach", category := FindingCategory.positive,
    title := "Checkout Flow Accessible",
    description := "Users can navigate from product to checkout successfully",
    evidence := "Checkout page reached during analysis",
    recommendation := "The checkout funnel is working - focus on optimization" }

/-- Source lines 1053-1060. -/
def successfulFormFillFinding : Finding :=
  { id := "successful-form-fill", category := FindingCategory.positive,
    title := "Checkout Form Functional",
    description := "The checkout form accepts customer information correctly",
    evidence := "Form fields were successfully filled during analysis",
    recommendation := "Form is usable - consider optimizing for speed" }

/-- Source lines 1102-1109, the single finding of the top-level failure
result. -/
def analysisFailedFinding (msg : String) : Finding :=
  { id := "analysis-failed", category := FindingCategory.critical,
    title := "Analysis Failed",
    description := "The analysis could not be completed",
    evidence := msg,
    recommendation := "Check if the store URL is accessible" }

/-! ## Classifier rule blocks (pure functions of the lowercased stringified
observation, source lines 109-162, 266-348, 510-559, 827-954) -/

/-- Homepage rule block, source lines 113-162, applied to
`JSON.stringify(homepageAnalysis).toLowerCase()`. -/
def homepageFindings (s : String) : List Finding :=
  (if !(incl s ("search")) || incl s ("no search") || incl s ("not visible") then
    (if !(incl s ("search bar")) && !(incl s ("search icon")) then [homepageNoSearchFinding] else [])
   else []) ++
  (if incl s ("confusing") || incl s ("cluttered") || incl s ("unclear") || incl s ("difficult") then
    [homepageNavUnclearFinding] else []) ++
  (if incl s ("hard to find") || incl s ("not easy") || incl s ("difficult to locate") then
    [homepageProductsHiddenFinding] else []) ++
  (if incl s ("popup") || incl s ("overlay") || incl s ("modal") then
    (if incl s ("annoying") || incl s ("intrusive") || incl s ("blocking") then [homepagePopupsFinding] else [])
   else [])

/-- Product-page rule block, source lines 270-348. -/
def productPageFindings (s : String) : List Finding :=
  (if incl s ("price") && (incl s ("not clear") || incl s ("hard to find") || incl s ("not visible")) then
    [productPriceUnclearFinding] else []) ++
  (if incl s ("image") && (incl s ("blurry") || incl s ("low quality") || incl s ("small") || incl s ("not zoomable")) then
    [productImagesPoorFinding] else []) ++
  (if incl s ("add to cart") && (incl s ("not prominent") || incl s ("hard to find") || incl s ("small")) then
    [productAtcNotProminentFinding] else []) ++
  (if !(incl s ("review")) && !(incl s ("rating")) && !(incl s ("star")) then [productNoReviewsFinding]
   else if incl s ("no review") || incl s ("no rating") then [productNoReviewsFinding] else []) ++
  (if !(incl s ("stock")) && !(incl s ("availability")) && !(incl s ("stok")) then
    [productNoStockInfoFinding] else []) ++
  (if !(incl s ("shipping")) && !(incl s ("delivery")) && !(incl s ("kargo")) && !(incl s ("teslimat")) then
    [productNoShippingInfoFinding] else [])

/-- Cart-experience rule block, source lines 514-559. -/
def cartExpFindings (s : String) : List Finding :=
  (if !(incl s ("feedback")) && !(incl s ("notification")) && !(incl s ("popup")) && !(incl s ("animation")) && !(incl s ("confirmation")) then
    [cartNoFeedbackFinding] else []) ++
  (if !(incl s ("free shipping")) && !(incl s ("ücretsiz kargo")) && !(incl s ("shipping threshold")) then
    [cartNoShippingThresholdFinding] else []) ++
  (if !(incl s ("upsell")) && !(incl s ("cross-sell")) && !(incl s ("also like")) && !(incl s ("recommend")) && !(incl s ("related")) then
    [cartNoUpsellFinding] else []) ++
  (if incl s ("checkout") && (incl s ("not clear") || incl s ("hard to find") || incl s ("hidden")) then
    [cartCheckoutUnclearFinding] else [])

/-- Checkout-page rule block, source lines 827-954, applied to the raw
`JSON.stringify(checkoutAnalysis)` (the conditions all lowercase it, and the
field-count regular expression carries the `i` flag). -/
def checkoutFindings (analysisStr : String) : List Finding :=
  let analysisLower := lowerStr analysisStr
  (if !(incl analysisLower ("discount")) && !(incl analysisLower ("coupon")) then
    [noDiscountFieldFinding] else []) ++
  (if !(incl analysisLower ("upsell")) && !(incl analysisLower ("cross-sell")) && !(incl analysisLower ("related")) && !(incl analysisLower ("recommend")) then
    [noUpsellFinding] else []) ++
  (if !(incl analysisLower ("trust")) && !(incl analysisLower ("security")) && !(incl analysisLower ("ssl")) && !(incl analysisLower ("secure")) then
    [noTrustBadgesFinding] else []) ++
  (if !(incl analysisLower ("free shipping")) && !(incl analysisLower ("ücretsiz kargo")) then
    [noFreeShippingThresholdFinding] else []) ++
  (if incl analysisLower ("login required") || (incl analysisLower ("login") && !(incl analysisLower ("guest"))) || incl analysisLower ("account required") || incl analysisLower ("sign in required") then
    [checkoutNoGuestFinding] else []) ++
  (match findFieldCount analysisLower with
   | some fieldCount => if fieldCount > 8 then [tooManyFieldsFinding fieldCount] else []
   | none => []) ++
  (if !(incl analysisLower ("progress")) && !(incl analysisLower ("step")) && !(incl analysisLower ("indicator")) && !(incl analysisLower ("adım")) then
    [checkoutNoProgressFinding] else []) ++
  (if !(incl analysisLower ("shipping cost")) && !(incl analysisLower ("delivery cost")) && !(incl analysisLower ("kargo ücreti")) && (incl analysisLower ("shipping") || incl analysisLower ("kargo")) then
    (if incl analysisLower ("not displayed") || incl analysisLower ("not visible") || incl analysisLower ("hidden") || incl analysisLower ("unclear") then
      [checkoutUnclearShippingFinding] else [])
   else []) ++
  (if incl analysisLower ("error") && !(incl analysisLower ("no error")) then
    (if incl analysisLower ("error message") || incl analysisLower ("validation error") then
      [checkoutHasErrorsFinding] else [])
   else [])

/-- Cart-success heuristic, source lines 477-481, applied to
`JSON.stringify(cartCheck).toLowerCase()`.  Note the first negative pattern
is the three-character quoted zero of the stringified observation. -/
def hasItemsDecision (cartCheckStr : String) : Bool :=
  !(incl cartCheckStr ("\"0\"")) &&
  !(incl cartCheckStr ("0 item")) &&
  !(incl cartCheckStr ("empty")) &&
  !(incl cartCheckStr ("no item")) &&
  (incl cartCheckStr ("1") || incl cartCheckStr ("item") || incl cartCheckStr ("added") || incl cartCheckStr ("eklendi") || incl cartCheckStr ("success"))

/-- Variant-required probe, source lines 410-420. -/
def needsVariantSelectionOf (errorCheckStr : String) : Bool :=
  incl errorCheckStr ("beden") ||
  incl errorCheckStr ("size") ||
  incl errorCheckStr ("seç") ||
  incl errorCheckStr ("select") ||
  incl errorCheckStr ("variant") ||
  incl errorCheckStr ("renk") ||
  incl errorCheckStr ("color") ||
  incl errorCheckStr ("required") ||
  incl errorCheckStr ("zorunlu") ||
  incl errorCheckStr ("lütfen")

/-- Cart-failure diagnosis, source lines 586-622: picks the one finding
pushed when the cart stayed empty. -/
def addFailFinding (cartCheckStr finalErrorStr : String) : Finding :=
  if incl finalErrorStr ("beden") || incl finalErrorStr ("size") || incl finalErrorStr ("variant") then
    addToCartSizeRequiredFinding finalErrorStr
  else if incl finalErrorStr ("stock") || incl finalErrorStr ("stok") || incl finalErrorStr ("tükendi") then
    addToCartOutOfStockFinding finalErrorStr
  else if incl finalErrorStr ("login") || incl finalErrorStr ("giriş") || incl finalErrorStr ("üye") then
    addToCartLoginRequiredFinding finalErrorStr
  else
    addToCartFailedDiagFinding cartCheckStr finalErrorStr

/-! ## Scoring model (source lines 988-1016) -/

/-- Count of findings in a category, source
`findings.filter(f => f.category === c).length`. -/
def countCat (cat : FindingCategory) (findings : List Finding) : Nat :=
  (findings.filter (fun f => f.category == cat)).length

/-- Scoring model, source lines 988-1016 kept in source order: funnel
completion (20 points per flag), then a UX-quality component starting at 40
with per-severity penalties, floored at 0, then the final clamp. -/
def computeScore (addToCartSuccess checkoutReached checkoutFormFilled : Bool) (findings : List Finding) : Int :=
  let score : Int := 0
  let score := if addToCartSuccess then score + 20 else score
  let score := if checkoutReached then score + 20 else score
  let score := if checkoutFormFilled then score + 20 else score
  let uxScore : Int := 40
  let uxScore := uxScore - (countCat FindingCategory.critical findings : Int) * 15
  let uxScore := uxScore - (countCat FindingCategory.warning findings : Int) * 8
  let uxScore := uxScore - (countCat FindingCategory.suggestion findings : Int) * 5
  let score := score + max 0 uxScore
  max 0 (min 100 score)

/-- Scoring formula as worded by the specification (claim C1), for
comparison with `computeScore`: funnel component plus a UX-quality component
floored at 0, the sum clamped to the interval from 0 to 100. -/
def scoreSpecModel (addToCart checkoutReached formFilled : Bool) (nCrit nWarn nSugg : Nat) : Int :=
  let funnel : Int :=
    (if addToCart then 20 else 0) + (if checkoutReached then 20 else 0) + (if formFilled then 20 else 0)
  let ux : Int := max 0 (40 - 15 * (nCrit : Int) - 8 * (nWarn : Int) - 5 * (nSugg : Int))
  max 0 (min 100 (funnel + ux))

/-- Derivation of the form-filled flag from the timeline, source line 996:
`timeline.some(t => t.action.includes('Filled checkout form'))`. -/
def checkoutFormFilledOf (timeline : List TimelineEvent) : Bool :=
  timeline.any (fun t => incl t.action ("Filled checkout form"))

/-- Positive findings appended after scoring, source lines 1019-1061.  The
source guard `timeToAddToCart && timeToAddToCart < 30` is JavaScript
truthiness: null and 0 are falsy. -/
def positiveFindings (addToCartSuccess : Bool) (timeToAddToCart : Option Int)
    (checkoutReached checkoutFormFilled : Bool) : List Finding :=
  (if addToCartSuccess then
    [successfulAddToCartFinding] ++
    (match timeToAddToCart with
     | some t => if !(t == 0) && t < 30 then [fastAddToCartFinding t] else []
     | none => [])
   else []) ++
  (if checkoutReached then [successfulCheckoutReachFinding] else []) ++
  (if checkoutFormFilled then [successfulFormFillFinding] else [])

/-! ## The environment model of the external page agent -/

/-- Behaviour of the external page-automation capability and of the ambient
oracles for one run of `runAnalysis`.  There is one field per call site of
the source; an `.error msg` value models the call throwing an `Error` whose
message is `msg`.  Extract fields carry the JSON-serialized observation
text.  `url` and `ts` are the successive values returned by `page.url()`
and `new Date().toISOString()`.  The wall clock is modelled as
non-decreasing: the `Date.now()` reading taken on cart success (source line
484) is `startMs + cartDeltaMs`. -/
structure AgentEnv where
  /-- The dynamic `import('@browserbasehq/stagehand')` together with
  `new Stagehand({...})`, source lines 49-56: the only fallible steps that
  sit outside the top-level try block. -/
  constructRes : Except String Unit
  /-- `stagehand.init()`, source line 59. -/
  initRes : Except String Unit
  /-- `stagehand.browserbaseSessionID`, source line 62. -/
  sessionId : Option String
  /-- Whether `stagehand.context.pages()[0]` yields a page, source lines
  69-73 (a missing page makes the source throw its own error message). -/
  pageOk : Bool
  /-- `page.goto(storeUrl, ...)`, source line 79. -/
  gotoRes : Except String Unit
  /-- Successive `page.url()` reads. -/
  url : Nat → String
  /-- Successive `new Date().toISOString()` timestamps. -/
  ts : Nat → String
  /-- `Date.now()` at run start, source line 45. -/
  startMs : Nat
  /-- Elapsed milliseconds between run start and the `Date.now()` reading
  taken on cart success, source line 484. -/
  cartDeltaMs : Nat
  /-- Homepage UX extract, source line 97. -/
  homepageExtract : Except String String
  /-- Initial page check extract, source line 184. -/
  initialCheck : Except String String
  /-- Products/shop navigation act, source line 193. -/
  navAct : Except String Unit
  /-- Dropdown-category corrective act, source line 207. -/
  dropdownAct : Except String Unit
  /-- Product-click act, source line 218. -/
  productClickAct : Except String Unit
  /-- Product-page check extract, source line 230. -/
  pageCheck : Except String String
  /-- Product-click retry act, source line 237. -/
  retryProductAct : Except String Unit
  /-- Product-page UX extract, source line 252. -/
  productExtract : Except String String
  /-- First add-to-cart act, source line 384. -/
  addAct : Except String Unit
  /-- Error-message probe extract, source line 395. -/
  errorCheck : Except String String
  /-- Variant-selection act, source line 433. -/
  variantAct : Except String Unit
  /-- Add-to-cart retry act, source line 443. -/
  addActRetry : Except String Unit
  /-- Second error probe extract, source line 449. -/
  secondErrorCheck : Except String String
  /-- Dropdown-variant act, source line 456. -/
  dropdownVariantAct : Except String Unit
  /-- Cart-state extract, source line 471. -/
  cartCheck : Except String String
  /-- Cart-experience extract, source line 498. -/
  cartExpExtract : Except String String
  /-- Cart-failure diagnostic extract, source line 575. -/
  finalErrorCheck : Except String String
  /-- Cart/checkout navigation act, source line 649. -/
  checkoutAct : Except String Unit
  /-- Cart-page info extract, source line 662. -/
  cartPageInfo : Except String String
  /-- Proceed-to-checkout act, source line 667. -/
  proceedAct : Except String Unit
  /-- Login/guest check extract, source line 695. -/
  loginCheck : Except String String
  /-- Guest-checkout act, source line 700. -/
  guestAct : Except String Unit
  /-- Contact-information act, source line 713. -/
  contactAct : Except String Unit
  /-- Name-fields act, source line 729. -/
  nameAct : Except String Unit
  /-- Address-fields act, source line 746. -/
  addressAct : Except String Unit
  /-- Address-modal check extract, source line 766. -/
  modalCheck : Except String String
  /-- Modal-save act, source line 771. -/
  modalSaveAct : Except String Unit
  /-- Shipping-method act, source line 784. -/
  shippingAct : Except String Unit
  /-- Advance-to-payment act, source line 800. -/
  paymentStepAct : Except String Unit
  /-- Checkout-page UX extract, source line 815. -/
  checkoutAnalysis : Except String String
  /-- First `stagehand.close()` invocation, source line 1063 (or line 1085
  when the pipeline crashed before reaching line 1063). -/
  closeRes : Except String Unit
  /-- Second `stagehand.close()` invocation, reachable only through the
  catch handler at line 1085 after the first close already ran; its outcome
  is swallowed. -/
  closeRes2 : Except String Unit

/-- Mutable state of one run: the accumulator variables declared at source
lines 37-46 plus the oracle indices for `page.url()` and timestamps. -/
structure PipeState where
  timeline : List TimelineEvent
  findings : List Finding
  addToCartSuccess : Bool
  checkoutReached : Bool
  dropOffStep : Option String
  timeToAddToCart : Option Int
  currentUrl : String
  sessionUrl : Option String
  uIdx : Nat
  tIdx : Nat

/-- Append a timeline event whose url field is the `currentUrl` variable. -/
def pushEvent (env : AgentEnv) (st : PipeState) (action : String) (success : Bool) : PipeState :=
  { st with
    timeline := st.timeline ++ [{ timestamp := env.ts st.tIdx, action := action, url := st.currentUrl, success := success }],
    tIdx := st.tIdx + 1 }

/-- Read `page.url()`: the next value of the url oracle. -/
def readUrl (env : AgentEnv) (st : PipeState) : String × PipeState :=
  (env.url st.uIdx, { st with uIdx := st.uIdx + 1 })

/-- Append a timeline event whose url field is a fresh `page.url()` read
(used by the pushes that inline `url: page.url()`). -/
def pushEventAtPageUrl (env : AgentEnv) (st : PipeState) (action : String) : PipeState :=
  let p := readUrl env st
  { p.2 with
    timeline := p.2.timeline ++ [{ timestamp := env.ts p.2.tIdx, action := action, url := p.1, success := true }],
    tIdx := p.2.tIdx + 1 }

/-! ## Stage functions -/

/-- Initial accumulator state, source lines 37-46. -/
def initialState : PipeState :=
  { timeline := [], findings := [], addToCartSuccess := false, checkoutReached := false,
    dropOffStep := none, timeToAddToCart := none, currentUrl := "", sessionUrl := none,
    uIdx := 0, tIdx := 0 }

/-- Initialization and navigation, source lines 59-92.  A `.inl` result is
an exception propagating to the top-level catch handler, carrying the
message together with the state (shared `timeline` and `sessionUrl`) at the
moment of the throw.  Failures here are the only stage failures escalated
to a `failed` result. -/
def stInit (_storeUrl : String) (env : AgentEnv) : Sum (String × PipeState) PipeState :=
  match env.initRes with
  | .error m => .inl (m, initialState)
  | .ok _ =>
    let st1 := { initialState with
      sessionUrl := match env.sessionId with
        | some sid => some (("https://browserbase.com/sessions/") ++ sid)
        | none => none }
    if env.pageOk then
      match env.gotoRes with
      | .error m => .inl (m, st1)
      | .ok _ =>
        let p := readUrl env st1
        let st2 := { p.2 with currentUrl := p.1 }
        .inr (pushEvent env st2 ("Navigate to store") true)
    else .inl (("Could not get page from stagehand.context.pages()"), st1)

/-- Homepage UX analysis, source lines 96-172: best-effort, its own
exceptions are swallowed (and then no timeline event is recorded). -/
def stHomepage (env : AgentEnv) (st : PipeState) : PipeState :=
  match env.homepageExtract with
  | .error _ => st
  | .ok obs =>
    let homepageStr := lowerStr obs
    let st := { st with findings := st.findings ++ homepageFindings homepageStr }
    pushEvent env st ("Analyzed homepage UX") true

/-- Catch handler of the product-discovery stage, source lines 360-370. -/
def pdCatch (msg : String) (st : PipeState) : PipeState :=
  { st with
    findings := st.findings ++ [noProductsFinding msg],
    dropOffStep := some ("product_discovery") }

/-- Tail of the product-discovery stage after a product was clicked: the
timeline push at source lines 242-247 and the best-effort product-page UX
analysis of lines 249-358. -/
def pdAfterPage (env : AgentEnv) (st : PipeState) : PipeState :=
  let st := pushEvent env st ("Navigated to product page") true
  match env.productExtract with
  | .error _ => st
  | .ok pobs =>
    let productStr := lowerStr pobs
    let st := { st with findings := st.findings ++ productPageFindings productStr }
    pushEvent env st ("Analyzed product page UX") true

/-- Step 2b of product discovery, source lines 218-358: click a product,
check the page, retry once if the check is negative. -/
def pdStep2b (env : AgentEnv) (st : PipeState) : PipeState :=
  match env.productClickAct with
  | .error m => pdCatch m st
  | .ok _ =>
    let p := readUrl env st
    let st := { p.2 with currentUrl := p.1 }
    match env.pageCheck with
    | .error m => pdCatch m st
    | .ok pobs =>
      let pageCheckStr := lowerStr pobs
      if !(incl pageCheckStr ("yes")) then
        match env.retryProductAct with
        | .error m => pdCatch m st
        | .ok _ =>
          let p := readUrl env st
          let st := { p.2 with currentUrl := p.1 }
          pdAfterPage env st
      else pdAfterPage env st

/-- Product-discovery stage, source lines 174-370, beginning with the
unconditional timeline push of lines 175-180. -/
def stPD (storeUrl : String) (env : AgentEnv) (st : PipeState) : PipeState :=
  let st := pushEvent env st ("Looking for products") true
  match env.initialCheck with
  | .error m => pdCatch m st
  | .ok obs =>
    let initialCheckStr := lowerStr obs
    if incl initialCheckStr ("homepage") || incl initialCheckStr ("navigate") || !(incl initialCheckStr ("price")) then
      match env.navAct with
      | .error m => pdCatch m st
      | .ok _ =>
        let p := readUrl env st
        let st := { p.2 with currentUrl := p.1 }
        if st.currentUrl == storeUrl || st.currentUrl == storeUrl ++ ("/") then
          match env.dropdownAct with
          | .error m => pdCatch m st
          | .ok _ =>
            let p := readUrl env st
            let st := { p.2 with currentUrl := p.1 }
            pdStep2b env st
        else pdStep2b env st
    else pdStep2b env st

/-- Catch handler of the add-to-cart stage, source lines 625-635. -/
def atcCatch (msg : String) (st : PipeState) : PipeState :=
  { st with
    findings := st.findings ++ [addToCartCatchFinding msg],
    dropOffStep := some ("add_to_cart") }

/-- Variant-selection escalation ladder, source lines 422-464.  A `.inl`
result is an exception propagating to the stage catch handler. -/
def atcLadder (env : AgentEnv) (st : PipeState) : Sum (String × PipeState) PipeState :=
  let st := pushEventAtPageUrl env st ("Detected size/variant selection required")
  match env.variantAct with
  | .error m => .inl (m, st)
  | .ok _ =>
    match env.addActRetry with
    | .error m => .inl (m, st)
    | .ok _ =>
      match env.secondErrorCheck with
      | .error m => .inl (m, st)
      | .ok sobs =>
        let secondErrorStr := lowerStr sobs
        if incl secondErrorStr ("beden") || incl secondErrorStr ("size") || incl secondErrorStr ("error") then
          match env.dropdownVariantAct with
          | .error m => .inl (m, st)
          | .ok _ => .inr st
        else .inr st

/-- Cart verification and its two outcomes, source lines 466-624. -/
def atcAfterLadder (env : AgentEnv) (st : PipeState) : PipeState :=
  let p := readUrl env st
  let st := { p.2 with currentUrl := p.1 }
  match env.cartCheck with
  | .error m => atcCatch m st
  | .ok cobs =>
    let cartCheckStr := lowerStr cobs
    if hasItemsDecision cartCheckStr then
      let addToCartMs := env.startMs + env.cartDeltaMs
      let st := { st with
        timeToAddToCart := some ((((addToCartMs - env.startMs) + 500) / 1000 : Nat) : Int),
        addToCartSuccess := true }
      let st := pushEvent env st ("Added product to cart") true
      match env.cartExpExtract with
      | .error _ => st
      | .ok ceobs =>
        let cartExpStr := lowerStr ceobs
        let st := { st with findings := st.findings ++ cartExpFindings cartExpStr }
        pushEvent env st ("Analyzed cart experience") true
    else
      match env.finalErrorCheck with
      | .error m => atcCatch m st
      | .ok fobs =>
        let finalErrorStr := lowerStr fobs
        { st with
          findings := st.findings ++ [addFailFinding cartCheckStr finalErrorStr],
          dropOffStep := some ("add_to_cart") }

/-- Add-to-cart stage, source lines 372-636, gated on `!dropOffStep`. -/
def stATC (env : AgentEnv) (st : PipeState) : PipeState :=
  if st.dropOffStep.isNone then
    let st := pushEvent env st ("Looking for Add to Cart button") true
    match env.addAct with
    | .error m => atcCatch m st
    | .ok _ =>
      match env.errorCheck with
      | .error m => atcCatch m st
      | .ok eobs =>
        let errorCheckStr := lowerStr eobs
        if needsVariantSelectionOf errorCheckStr then
          match atcLadder env st with
          | .inl (m, st2) => atcCatch m st2
          | .inr st2 => atcAfterLadder env st2
        else atcAfterLadder env st
  else st

/-- Catch handler of the checkout-navigation stage, source lines 975-985. -/
def coCatch (msg : String) (st : PipeState) : PipeState :=
  { st with
    dropOffStep := some ("checkout_navigation"),
    findings := st.findings ++ [checkoutFailedFinding msg] }

/-- Tail of the form-filling sequence, source lines 783-961: shipping
method, advance to payment, the form-filled timeline push, and the
checkout-page UX analysis.  A `.inl` result propagates to the form-level
catch handler. -/
def formTail (env : AgentEnv) (st : PipeState) : Sum (String × PipeState) PipeState :=
  match env.shippingAct with
  | .error m => .inl (m, st)
  | .ok _ =>
    let st := pushEventAtPageUrl env st ("Selected shipping method")
    match env.paymentStepAct with
    | .error m => .inl (m, st)
    | .ok _ =>
      let p := readUrl env st
      let st := { p.2 with currentUrl := p.1 }
      let st := pushEvent env st ("Filled checkout form with dummy data") true
      match env.checkoutAnalysis with
      | .error m => .inl (m, st)
      | .ok aobs =>
        let st := { st with findings := st.findings ++ checkoutFindings aobs }
        .inr (pushEvent env st ("Analyzed checkout page for UX issues") true)

/-- Contact, name and address fill steps plus the address-modal handling,
source lines 704-781. -/
def formSteps (env : AgentEnv) (st : PipeState) : Sum (String × PipeState) PipeState :=
  let st := pushEventAtPageUrl env st ("Handling login/guest checkout")
  match env.contactAct with
  | .error m => .inl (m, st)
  | .ok _ =>
    let st := pushEventAtPageUrl env st ("Filled contact information")
    match env.nameAct with
    | .error m => .inl (m, st)
    | .ok _ =>
      let st := pushEventAtPageUrl env st ("Filled name fields")
      match env.addressAct with
      | .error m => .inl (m, st)
      | .ok _ =>
        let st := pushEventAtPageUrl env st ("Filled address fields")
        match env.modalCheck with
        | .error m => .inl (m, st)
        | .ok mobs =>
          let modalCheckStr := lowerStr mobs
          if incl modalCheckStr ("modal") || incl modalCheckStr ("popup") || incl modalCheckStr ("kaydet") || incl modalCheckStr ("save") then
            match env.modalSaveAct with
            | .error m => .inl (m, st)
            | .ok _ =>
              let st := pushEventAtPageUrl env st ("Saved address from modal")
              formTail env st
          else formTail env st

/-- Form-filling inner try block, source lines 690-961, starting with the
login/guest handling of lines 694-702. -/
def formFill (env : AgentEnv) (st : PipeState) : Sum (String × PipeState) PipeState :=
  match env.loginCheck with
  | .error m => .inl (m, st)
  | .ok lobs =>
    let loginCheckStr := lowerStr lobs
    if incl loginCheckStr ("login") || incl loginCheckStr ("guest") then
      match env.guestAct with
      | .error m => .inl (m, st)
      | .ok _ => formSteps env st
    else formSteps env st

/-- Checkout main part once navigation succeeded, source lines 680-973:
sets `checkoutReached`, records the form-filling start, and runs the
form-filling try block whose exceptions are downgraded to a single warning
finding. -/
def coMain (env : AgentEnv) (st : PipeState) : PipeState :=
  let st := { st with checkoutReached := true }
  let st := pushEvent env st ("Filling checkout form") true
  match formFill env st with
  | .inl (m, st2) => { st2 with findings := st2.findings ++ [checkoutFormIssuesFinding m] }
  | .inr st2 => st2

/-- Checkout-navigation stage, source lines 638-986, gated on
`addToCartSuccess && !dropOffStep`. -/
def stCheckout (env : AgentEnv) (st : PipeState) : PipeState :=
  if st.addToCartSuccess && st.dropOffStep.isNone then
    let st := pushEvent env st ("Navigating to cart/checkout") true
    match env.checkoutAct with
    | .error m => coCatch m st
    | .ok _ =>
      let p := readUrl env st
      let st := { p.2 with currentUrl := p.1 }
      let st := pushEvent env st ("Clicked cart/checkout button") true
      match env.cartPageInfo with
      | .error m => coCatch m st
      | .ok cobs =>
        let cartInfoStr := lowerStr cobs
        if incl cartInfoStr ("cart") || incl cartInfoStr ("sepet") then
          match env.proceedAct with
          | .error m => coCatch m st
          | .ok _ =>
            let p := readUrl env st
            let st := { p.2 with currentUrl := p.1 }
            let st := pushEvent env st ("Proceeded to checkout from cart") true
            coMain env st
        else coMain env st
  else st

/-! ## Assembling the run -/

/-- The stage pipeline: everything inside the top-level try block before the
scoring section, source lines 59-986. -/
def pipeline (storeUrl : String) (env : AgentEnv) : Sum (String × PipeState) PipeState :=
  match stInit storeUrl env with
  | .inl c => .inl c
  | .inr st => .inr (stCheckout env (stATC env (stPD storeUrl env (stHomepage env st))))

/-- The completed result, source lines 988-1080: scoring, the derived
form-filled flag, the positive findings appended after scoring, and the
result record. -/
def completedResult (storeUrl runId : String) (st : PipeState) : AnalysisResult :=
  let checkoutFormFilled := checkoutFormFilledOf st.timeline
  let score := computeScore st.addToCartSuccess st.checkoutReached checkoutFormFilled st.findings
  let findings := st.findings ++ positiveFindings st.addToCartSuccess st.timeToAddToCart st.checkoutReached checkoutFormFilled
  { run_id := runId, store_url := storeUrl, status := RunStatus.completed, score := score,
    metrics := { add_to_cart_success := st.addToCartSuccess,
                 time_to_add_to_cart_seconds := st.timeToAddToCart,
                 checkout_reached := st.checkoutReached,
                 checkout_form_filled := checkoutFormFilled,
                 drop_off_step := st.dropOffStep },
    findings := findings, timeline := st.timeline, session_url := st.sessionUrl, error := none }

/-- The failed result built by the top-level catch handler, source lines
1090-1113: hardcoded metrics, a single critical finding, the accumulated
timeline and session url, and the error message. -/
def failedResult (storeUrl runId msg : String) (timeline : List TimelineEvent)
    (sessionUrl : Option String) : AnalysisResult :=
  { run_id := runId, store_url := storeUrl, status := RunStatus.failed, score := 0,
    metrics := { add_to_cart_success := false,
                 time_to_add_to_cart_seconds := none,
                 checkout_reached := false,
                 checkout_form_filled := false,
                 drop_off_step := some ("initialization") },
    findings := [analysisFailedFinding msg], timeline := timeline,
    session_url := sessionUrl, error := some msg }

/-- Embedding of `runAnalysis(storeUrl, runId)` instrumented with the number
of `stagehand.close()` invocations.  A `.error` first component models the
returned promise rejecting (only possible when the dynamic import or the
`Stagehand` constructor throws, source lines 49-56, which sit outside the
try block).  On the happy path the close at source line 1063 sits inside
the try block: its failure falls through to the catch handler, which closes
a second time (swallowed) and returns the failed result. -/
def runAnalysisFull (storeUrl runId : String) (env : AgentEnv) : Except String AnalysisResult × Nat :=
  match env.constructRes with
  | .error m => (.error m, 0)
  | .ok _ =>
    match pipeline storeUrl env with
    | .inl (m, st) => (.ok (failedResult storeUrl runId m st.timeline st.sessionUrl), 1)
    | .inr st =>
      match env.closeRes with
      | .ok _ => (.ok (completedResult storeUrl runId st), 1)
      | .error m => (.ok (failedResult storeUrl runId m st.timeline st.sessionUrl), 2)

/-- Embedding of `runAnalysis(storeUrl, runId)`: the returned value. -/
def runAnalysis (storeUrl runId : String) (env : AgentEnv) : Except String AnalysisResult :=
  (runAnalysisFull storeUrl runId env).fst

/-! ## Concrete environments used by the witnesses and counterexamples -/

/-- Store url used by the concrete runs below. -/
def storeU : String := "https://store.example"

/-- Run id used by the concrete runs below. -/
def runI : String := "run-1"

/-- A fully successful behaviour of the page agent: every call succeeds,
the observations take the short-circuit branches, the cart check reports
one item, and the close succeeds. -/
def envHappy : AgentEnv :=
  { constructRes := Except.ok ()
    initRes := Except.ok ()
    sessionId := none
    pageOk := true
    gotoRes := Except.ok ()
    url := fun _ => "https://store.example/p"
    ts := fun _ => "2026-01-01T00:00:00.000Z"
    startMs := 1000
    cartDeltaMs := 5000
    homepageExtract := Except.ok "search shown clearly"
    initialCheck := Except.ok "products with price visible"
    navAct := Except.ok ()
    dropdownAct := Except.ok ()
    productClickAct := Except.ok ()
    pageCheck := Except.ok "yes"
    retryProductAct := Except.ok ()
    productExtract := Except.ok "price shown, review shown, stock shown, shipping shown"
    addAct := Except.ok ()
    errorCheck := Except.ok "all fine"
    variantAct := Except.ok ()
    addActRetry := Except.ok ()
    secondErrorCheck := Except.ok "ok"
    dropdownVariantAct := Except.ok ()
    cartCheck := Except.ok "1 item added"
    cartExpExtract := Except.ok "feedback shown, free shipping note, upsell shown"
    finalErrorCheck := Except.ok "none"
    checkoutAct := Except.ok ()
    cartPageInfo := Except.ok "payment page"
    proceedAct := Except.ok ()
    loginCheck := Except.ok "nothing special"
    guestAct := Except.ok ()
    contactAct := Except.ok ()
    nameAct := Except.ok ()
    addressAct := Except.ok ()
    modalCheck := Except.ok "nothing open"
    modalSaveAct := Except.ok ()
    shippingAct := Except.ok ()
    paymentStepAct := Except.ok ()
    checkoutAnalysis := Except.ok "discount upsell trust free shipping step no error"
    closeRes := Except.ok ()
    closeRes2 := Except.ok () }

/-- The happy behaviour except that the single `stagehand.close()` at source
line 1063 throws. -/
def envCloseBoom : AgentEnv := { envHappy with closeRes := Except.error ("close failed") }

/-- The happy behaviour except that the login/guest check extract of the
form-filling stage throws (caught locally as a warning finding). -/
def envFormBoom : AgentEnv := { envHappy with loginCheck := Except.error ("form fill failed") }

/-- The happy behaviour except that the dynamic import or the `Stagehand`
constructor throws. -/
def envConstructBoom : AgentEnv := { envHappy with constructRes := Except.error ("module load failed") }

/-- The happy behaviour except that `stagehand.init()` throws. -/
def envInitBoom : AgentEnv := { envHappy with initRes := Except.error ("init failed") }

/-- The happy behaviour except that the product-click act throws, making the
product-discovery stage fail. -/
def envPdBoom : AgentEnv := { envHappy with productClickAct := Except.error ("no products found") }

/-- The result value of a run, projected out of the `Except` (total: the
fallback is only taken when the run rejects). -/
def theResult (storeUrl runId : String) (env : AgentEnv) : AnalysisResult :=
  match runAnalysis storeUrl runId env with
  | .ok r => r
  | .error _ =>
    { run_id := "", store_url := "", status := RunStatus.failed, score := 0,
      metrics := { add_to_cart_success := false, time_to_add_to_cart_seconds := none,
                   checkout_reached := false, checkout_form_filled := false, drop_off_step := none },
      findings := [], timeline := [], session_url := none, error := none }

/-! ## Helper lemmas about the scoring model and the finding lists -/

theorem computeScore_eq_spec (a c fm : Bool) (fs : List Finding) :
    computeScore a c fm fs =
      scoreSpecModel a c fm (countCat FindingCategory.critical fs)
        (countCat FindingCategory.warning fs) (countCat FindingCategory.suggestion fs) := by
  unfold computeScore scoreSpecModel
  cases a <;> cases c <;> cases fm <;> simp <;> ring_nf

theorem computeScore_bounds (a c fm : Bool) (fs : List Finding) :
    0 ≤ computeScore a c fm fs ∧ computeScore a c fm fs ≤ 100 := by
  unfold computeScore
  constructor
  · exact le_max_left 0 _
  · exact max_le (by norm_num) (min_le_left _ _)

theorem countCat_append (cat : FindingCategory) (l l' : List Finding) :
    countCat cat (l ++ l') = countCat cat l + countCat cat l' := by
  simp [countCat, List.filter_append]

theorem countCat_positives (cat : FindingCategory) (a c fm : Bool) (tt : Option Int)
    (h : cat ≠ FindingCategory.positive) :
    countCat cat (positiveFindings a tt c fm) = 0 := by
  cases cat
  case positive => exact absurd rfl h
  all_goals
    cases a <;> cases c <;> cases fm <;> cases tt <;>
      simp [countCat, positiveFindings, successfulAddToCartFinding, fastAddToCartFinding,
        successfulCheckoutReachFinding, successfulFormFillFinding] <;>
      intro x h1 h2 hx <;> subst hx <;> simp

theorem homepageFindings_benign (s : String) : ∀ f ∈ homepageFindings s,
    (f.category = FindingCategory.warning ∨ f.category = FindingCategory.suggestion) ∧
      f.id ≠ "no-products" := by
  intro f hf
  simp only [homepageFindings, List.mem_append] at hf
  rcases hf with ((h | h) | h) | h <;> split at h <;> (try split at h) <;>
    simp_all +decide [homepageNoSearchFinding, homepageNavUnclearFinding,
      homepageProductsHiddenFinding, homepagePopupsFinding]

theorem checkoutFormFilledOf_append (l l' : List TimelineEvent) :
    checkoutFormFilledOf (l ++ l') = (checkoutFormFilledOf l || checkoutFormFilledOf l') := by
  simp [checkoutFormFilledOf]

/-! ## Stage characterization lemmas -/

/-- Fields other than findings, timeline contents and url bookkeeping are
preserved, and the derived form-filled flag is unchanged. -/
def PreservesCore (st st' : PipeState) : Prop :=
  st'.addToCartSuccess = st.addToCartSuccess ∧
  st'.timeToAddToCart = st.timeToAddToCart ∧
  st'.checkoutReached = st.checkoutReached ∧
  st'.dropOffStep = st.dropOffStep ∧
  st'.sessionUrl = st.sessionUrl ∧
  checkoutFormFilledOf st'.timeline = checkoutFormFilledOf st.timeline

theorem preservesCore_self (st : PipeState) : PreservesCore st st :=
  ⟨rfl, rfl, rfl, rfl, rfl, rfl⟩

theorem preservesCore_trans {a b c : PipeState}
    (h1 : PreservesCore a b) (h2 : PreservesCore b c) : PreservesCore a c :=
  ⟨h2.1.trans h1.1, h2.2.1.trans h1.2.1, h2.2.2.1.trans h1.2.2.1,
   h2.2.2.2.1.trans h1.2.2.2.1, h2.2.2.2.2.1.trans h1.2.2.2.2.1,
   h2.2.2.2.2.2.trans h1.2.2.2.2.2⟩

/-- Outcome of the product-discovery catch handler relative to the stage
entry state. -/
def PdFailChar (st st' : PipeState) : Prop :=
  ∃ m, st'.dropOffStep = some ("product_discovery") ∧
    st'.findings = st.findings ++ [noProductsFinding m] ∧
    st'.addToCartSuccess = st.addToCartSuccess ∧
    st'.timeToAddToCart = st.timeToAddToCart ∧
    st'.checkoutReached = st.checkoutReached ∧
    st'.sessionUrl = st.sessionUrl ∧
    checkoutFormFilledOf st'.timeline = checkoutFormFilledOf st.timeline

theorem pdAfterPage_char (env : AgentEnv) (st : PipeState) :
    PreservesCore st (pdAfterPage env st) := by
  unfold pdAfterPage
  cases hp : env.productExtract <;>
    simp +decide [PreservesCore, pushEvent, checkoutFormFilledOf_append, checkoutFormFilledOf]

theorem pdStep2b_char (env : AgentEnv) (st : PipeState) :
    PreservesCore st (pdStep2b env st) ∨ PdFailChar st (pdStep2b env st) := by
  unfold pdStep2b
  cases h1 : env.productClickAct
  case error m => exact Or.inr ⟨m, by simp [pdCatch]⟩
  case ok =>
    cases h2 : env.pageCheck
    case error m => exact Or.inr ⟨m, by simp [pdCatch, readUrl]⟩
    case ok pobs =>
      simp only [readUrl]
      split
      · cases h3 : env.retryProductAct
        case error m => exact Or.inr ⟨m, by simp [pdCatch]⟩
        case ok =>
          refine Or.inl (preservesCore_trans ?_ (pdAfterPage_char env _))
          simp [PreservesCore]
      · refine Or.inl (preservesCore_trans ?_ (pdAfterPage_char env _))
        simp [PreservesCore]

theorem stPD_char (u : String) (env : AgentEnv) (st : PipeState) :
    PreservesCore st (stPD u env st) ∨ PdFailChar st (stPD u env st) := by
  unfold stPD
  cases h1 : env.initialCheck
  case error m =>
    exact Or.inr ⟨m, by
      simp +decide [pdCatch, pushEvent, checkoutFormFilledOf_append, checkoutFormFilledOf]⟩
  case ok obs =>
    dsimp only
    have hmid : ∀ (st2 : PipeState), PreservesCore st st2 → st2.findings = st.findings →
        PreservesCore st (pdStep2b env st2) ∨ PdFailChar st (pdStep2b env st2) := by
      intro st2 hcore hfind
      rcases pdStep2b_char env st2 with hc | hc
      · exact Or.inl (preservesCore_trans hcore hc)
      · obtain ⟨m, w1, w2, w3, w4, w5, w6, w7⟩ := hc
        refine Or.inr ⟨m, w1, ?_, ?_, ?_, ?_, ?_, ?_⟩ <;> simp_all [PreservesCore]
    split
    · cases h2 : env.navAct
      case error m =>
        exact Or.inr ⟨m, by
          simp +decide [pdCatch, pushEvent, checkoutFormFilledOf_append, checkoutFormFilledOf]⟩
      case ok =>
        dsimp only [readUrl]
        split
        · cases h3 : env.dropdownAct
          case error m =>
            exact Or.inr ⟨m, by
              simp +decide [pdCatch, pushEvent, checkoutFormFilledOf_append, checkoutFormFilledOf]⟩
          case ok =>
            dsimp only [readUrl]
            refine hmid _ ?_ (by simp [pushEvent])
            simp +decide [PreservesCore, pushEvent, checkoutFormFilledOf_append, checkoutFormFilledOf]
        · refine hmid _ ?_ (by simp [pushEvent])
          simp +decide [PreservesCore, pushEvent, checkoutFormFilledOf_append, checkoutFormFilledOf]
    · refine hmid _ ?_ (by simp [pushEvent])
      simp +decide [PreservesCore, pushEvent, checkoutFormFilledOf_append, checkoutFormFilledOf]
/-- Outcome of the add-to-cart catch handler or empty-cart diagnosis
relative to the stage entry state: the drop-off is recorded and the funnel
fields are untouched. -/
def AtcFailChar (st st' : PipeState) : Prop :=
  st'.dropOffStep = some ("add_to_cart") ∧
  st'.addToCartSuccess = st.addToCartSuccess ∧
  st'.timeToAddToCart = st.timeToAddToCart ∧
  st'.checkoutReached = st.checkoutReached ∧
  st'.sessionUrl = st.sessionUrl ∧
  checkoutFormFilledOf st'.timeline = checkoutFormFilledOf st.timeline

/-- Outcome of a successful add-to-cart relative to the stage entry state:
the success flag and a non-negative time are set together. -/
def AtcOkChar (st st' : PipeState) : Prop :=
  ∃ v : Int, 0 ≤ v ∧ st'.addToCartSuccess = true ∧ st'.timeToAddToCart = some v ∧
    st'.dropOffStep = st.dropOffStep ∧
    st'.checkoutReached = st.checkoutReached ∧
    st'.sessionUrl = st.sessionUrl ∧
    checkoutFormFilledOf st'.timeline = checkoutFormFilledOf st.timeline

theorem atcAfterLadder_char (env : AgentEnv) (st : PipeState) :
    AtcOkChar st (atcAfterLadder env st) ∨ AtcFailChar st (atcAfterLadder env st) := by
  unfold atcAfterLadder
  dsimp only [readUrl]
  cases h1 : env.cartCheck
  case error m =>
    exact Or.inr (by
      simp +decide [AtcFailChar, atcCatch, pushEvent, checkoutFormFilledOf_append, checkoutFormFilledOf])
  case ok cobs =>
    dsimp only
    split
    · left
      refine ⟨(((env.startMs + env.cartDeltaMs - env.startMs) + 500) / 1000 : Nat), by positivity, ?_⟩
      cases h2 : env.cartExpExtract <;>
        simp +decide [pushEvent, checkoutFormFilledOf_append, checkoutFormFilledOf]
    · cases h3 : env.finalErrorCheck
      case error m =>
        exact Or.inr (by
          simp +decide [AtcFailChar, atcCatch, pushEvent, checkoutFormFilledOf_append, checkoutFormFilledOf])
      case ok fobs =>
        exact Or.inr (by
          simp +decide [AtcFailChar, pushEvent, checkoutFormFilledOf_append, checkoutFormFilledOf])

theorem atcLadder_char (env : AgentEnv) (st : PipeState) :
    (∃ m st2, atcLadder env st = Sum.inl (m, st2) ∧ PreservesCore st st2 ∧ st2.findings = st.findings) ∨
    (∃ st2, atcLadder env st = Sum.inr st2 ∧ PreservesCore st st2 ∧ st2.findings = st.findings) := by
  unfold atcLadder
  dsimp only [pushEventAtPageUrl, readUrl]
  have hp : PreservesCore st
      { st with
        uIdx := st.uIdx + 1,
        timeline := st.timeline ++ [{ timestamp := env.ts st.tIdx, action := ("Detected size/variant selection required"), url := env.url st.uIdx, success := true }],
        tIdx := st.tIdx + 1 } := by
    simp +decide [PreservesCore, checkoutFormFilledOf_append, checkoutFormFilledOf]
  cases h1 : env.variantAct
  case error m => exact Or.inl ⟨m, _, rfl, hp, rfl⟩
  case ok =>
    cases h2 : env.addActRetry
    case error m => exact Or.inl ⟨m, _, rfl, hp, rfl⟩
    case ok =>
      cases h3 : env.secondErrorCheck
      case error m => exact Or.inl ⟨m, _, rfl, hp, rfl⟩
      case ok sobs =>
        dsimp only
        split
        · cases h4 : env.dropdownVariantAct
          case error m => exact Or.inl ⟨m, _, rfl, hp, rfl⟩
          case ok => exact Or.inr ⟨_, rfl, hp, rfl⟩
        · exact Or.inr ⟨_, rfl, hp, rfl⟩

theorem stATC_skip (env : AgentEnv) (st : PipeState) (h : st.dropOffStep.isNone = false) :
    stATC env st = st := by
  unfold stATC
  simp [h]

theorem stATC_char (env : AgentEnv) (st : PipeState) (h : st.dropOffStep = none) :
    AtcOkChar st (stATC env st) ∨ AtcFailChar st (stATC env st) := by
  unfold stATC
  rw [h]
  dsimp only [Option.isNone]
  have hpush : PreservesCore st (pushEvent env st ("Looking for Add to Cart button") true) := by
    simp +decide [PreservesCore, pushEvent, checkoutFormFilledOf_append, checkoutFormFilledOf]
  have hcomp : ∀ st2 : PipeState, PreservesCore st st2 →
      AtcOkChar st (atcAfterLadder env st2) ∨ AtcFailChar st (atcAfterLadder env st2) := by
    intro st2 hcore
    rcases atcAfterLadder_char env st2 with hc | hc
    · obtain ⟨v, hv, w1, w2, w3, w4, w5, w6⟩ := hc
      exact Or.inl ⟨v, hv, w1, w2, by simp_all [PreservesCore], by simp_all [PreservesCore],
        by simp_all [PreservesCore], by simp_all [PreservesCore]⟩
    · obtain ⟨w1, w2, w3, w4, w5, w6⟩ := hc
      exact Or.inr ⟨w1, by simp_all [PreservesCore], by simp_all [PreservesCore],
        by simp_all [PreservesCore], by simp_all [PreservesCore], by simp_all [PreservesCore]⟩
  cases h1 : env.addAct
  case error m =>
    exact Or.inr (by
      simp +decide [AtcFailChar, atcCatch, pushEvent, checkoutFormFilledOf_append, checkoutFormFilledOf])
  case ok =>
    cases h2 : env.errorCheck
    case error m =>
      exact Or.inr (by
        simp +decide [AtcFailChar, atcCatch, pushEvent, checkoutFormFilledOf_append, checkoutFormFilledOf])
    case ok eobs =>
      dsimp only
      by_cases hnv : needsVariantSelectionOf (lowerStr eobs) = true
      · rw [if_pos hnv]
        rcases atcLadder_char env (pushEvent env st ("Looking for Add to Cart button") true) with
          ⟨m, st2, heq, hcore, hfind⟩ | ⟨st2, heq, hcore, hfind⟩
        · rw [heq]
          refine Or.inr ?_
          have hcore2 := preservesCore_trans hpush hcore
          simp only [atcCatch]
          obtain ⟨w1, w2, w3, w4, w5, w6⟩ := hcore2
          exact ⟨rfl, w1, w2, w3, w5, w6⟩
        · rw [heq]
          exact hcomp st2 (preservesCore_trans hpush hcore)
      · rw [if_neg hnv]
        exact hcomp _ hpush
/-- The form-filling try block only appends events and findings: the funnel
flags, the drop-off and the session url pass through. -/
def FormPres (st st' : PipeState) : Prop :=
  st'.addToCartSuccess = st.addToCartSuccess ∧
  st'.timeToAddToCart = st.timeToAddToCart ∧
  st'.checkoutReached = st.checkoutReached ∧
  st'.dropOffStep = st.dropOffStep ∧
  st'.sessionUrl = st.sessionUrl

theorem formTail_pres (env : AgentEnv) (st : PipeState) :
    (∃ m st2, formTail env st = Sum.inl (m, st2) ∧ FormPres st st2) ∨
    (∃ st2, formTail env st = Sum.inr st2 ∧ FormPres st st2) := by
  unfold formTail
  dsimp only [pushEventAtPageUrl, readUrl]
  cases h1 : env.shippingAct
  case error m => exact Or.inl ⟨m, _, rfl, rfl, rfl, rfl, rfl, rfl⟩
  case ok =>
    cases h2 : env.paymentStepAct
    case error m => exact Or.inl ⟨m, _, rfl, rfl, rfl, rfl, rfl, rfl⟩
    case ok =>
      dsimp only [pushEvent]
      cases h3 : env.checkoutAnalysis
      case error m => exact Or.inl ⟨m, _, rfl, rfl, rfl, rfl, rfl, rfl⟩
      case ok aobs => exact Or.inr ⟨_, rfl, rfl, rfl, rfl, rfl, rfl⟩

theorem formSteps_pres (env : AgentEnv) (st : PipeState) :
    (∃ m st2, formSteps env st = Sum.inl (m, st2) ∧ FormPres st st2) ∨
    (∃ st2, formSteps env st = Sum.inr st2 ∧ FormPres st st2) := by
  unfold formSteps
  dsimp only [pushEventAtPageUrl, readUrl]
  have htail : ∀ st2 : PipeState, FormPres st st2 →
      (∃ m st3, formTail env st2 = Sum.inl (m, st3) ∧ FormPres st st3) ∨
      (∃ st3, formTail env st2 = Sum.inr st3 ∧ FormPres st st3) := by
    intro st2 hpres
    rcases formTail_pres env st2 with ⟨m, st3, heq, hp⟩ | ⟨st3, heq, hp⟩
    · exact Or.inl ⟨m, st3, heq, hp.1.trans hpres.1, hp.2.1.trans hpres.2.1,
        hp.2.2.1.trans hpres.2.2.1, hp.2.2.2.1.trans hpres.2.2.2.1, hp.2.2.2.2.trans hpres.2.2.2.2⟩
    · exact Or.inr ⟨st3, heq, hp.1.trans hpres.1, hp.2.1.trans hpres.2.1,
        hp.2.2.1.trans hpres.2.2.1, hp.2.2.2.1.trans hpres.2.2.2.1, hp.2.2.2.2.trans hpres.2.2.2.2⟩
  cases h1 : env.contactAct
  case error m => exact Or.inl ⟨m, _, rfl, rfl, rfl, rfl, rfl, rfl⟩
  case ok =>
    cases h2 : env.nameAct
    case error m => exact Or.inl ⟨m, _, rfl, rfl, rfl, rfl, rfl, rfl⟩
    case ok =>
      cases h3 : env.addressAct
      case error m => exact Or.inl ⟨m, _, rfl, rfl, rfl, rfl, rfl, rfl⟩
      case ok =>
        cases h4 : env.modalCheck
        case error m => exact Or.inl ⟨m, _, rfl, rfl, rfl, rfl, rfl, rfl⟩
        case ok mobs =>
          dsimp only
          split
          · cases h5 : env.modalSaveAct
            case error m => exact Or.inl ⟨m, _, rfl, rfl, rfl, rfl, rfl, rfl⟩
            case ok => exact htail _ ⟨rfl, rfl, rfl, rfl, rfl⟩
          · exact htail _ ⟨rfl, rfl, rfl, rfl, rfl⟩

theorem formFill_pres (env : AgentEnv) (st : PipeState) :
    (∃ m st2, formFill env st = Sum.inl (m, st2) ∧ FormPres st st2) ∨
    (∃ st2, formFill env st = Sum.inr st2 ∧ FormPres st st2) := by
  unfold formFill
  cases h1 : env.loginCheck
  case error m => exact Or.inl ⟨m, _, rfl, rfl, rfl, rfl, rfl, rfl⟩
  case ok lobs =>
    dsimp only
    split
    · cases h2 : env.guestAct
      case error m => exact Or.inl ⟨m, _, rfl, rfl, rfl, rfl, rfl, rfl⟩
      case ok => exact formSteps_pres env st
    · exact formSteps_pres env st

/-- Outcome of the checkout stage when it was entered and its navigation
part succeeded: the form path was taken, `checkoutReached` is set, and no
drop-off is recorded by this stage. -/
theorem coMain_char (env : AgentEnv) (st : PipeState) :
    (coMain env st).dropOffStep = st.dropOffStep ∧
    (coMain env st).checkoutReached = true ∧
    (coMain env st).addToCartSuccess = st.addToCartSuccess ∧
    (coMain env st).timeToAddToCart = st.timeToAddToCart ∧
    (coMain env st).sessionUrl = st.sessionUrl := by
  unfold coMain
  dsimp only
  rcases formFill_pres env (pushEvent env { st with checkoutReached := true } ("Filling checkout form") true) with
    ⟨m, st2, heq, hp⟩ | ⟨st2, heq, hp⟩ <;>
    rw [heq] <;>
    obtain ⟨w1, w2, w3, w4, w5⟩ := hp <;>
    simp_all [pushEvent]

/-- Outcome of the checkout-navigation catch handler relative to the stage
entry state. -/
def CoFailChar (st st' : PipeState) : Prop :=
  st'.dropOffStep = some ("checkout_navigation") ∧
  st'.addToCartSuccess = st.addToCartSuccess ∧
  st'.timeToAddToCart = st.timeToAddToCart ∧
  st'.checkoutReached = st.checkoutReached ∧
  st'.sessionUrl = st.sessionUrl ∧
  checkoutFormFilledOf st'.timeline = checkoutFormFilledOf st.timeline

/-- Outcome of the checkout stage once entered. -/
theorem stCheckout_char (env : AgentEnv) (st : PipeState)
    (ha : st.addToCartSuccess = true) (hd : st.dropOffStep = none) :
    ((stCheckout env st).dropOffStep = none ∧
     (stCheckout env st).checkoutReached = true ∧
     (stCheckout env st).addToCartSuccess = true ∧
     (stCheckout env st).timeToAddToCart = st.timeToAddToCart ∧
     (stCheckout env st).sessionUrl = st.sessionUrl) ∨
    CoFailChar st (stCheckout env st) := by
  unfold stCheckout
  have hgate : (st.addToCartSuccess && st.dropOffStep.isNone) = true := by rw [ha, hd]; rfl
  rw [if_pos hgate]
  have hmain : ∀ st2 : PipeState, st2.dropOffStep = none → st2.addToCartSuccess = true →
      st2.timeToAddToCart = st.timeToAddToCart → st2.sessionUrl = st.sessionUrl →
      ((coMain env st2).dropOffStep = none ∧
       (coMain env st2).checkoutReached = true ∧
       (coMain env st2).addToCartSuccess = true ∧
       (coMain env st2).timeToAddToCart = st.timeToAddToCart ∧
       (coMain env st2).sessionUrl = st.sessionUrl) := by
    intro st2 w1 w2 w3 w4
    obtain ⟨c1, c2, c3, c4, c5⟩ := coMain_char env st2
    exact ⟨c1.trans w1, c2, c3.trans w2, c4.trans w3, c5.trans w4⟩
  cases h1 : env.checkoutAct
  case error m =>
    refine Or.inr ?_
    simp +decide [CoFailChar, coCatch, pushEvent, checkoutFormFilledOf_append, checkoutFormFilledOf]
  case ok =>
    dsimp only [readUrl, pushEvent]
    cases h2 : env.cartPageInfo
    case error m =>
      refine Or.inr ?_
      simp +decide [CoFailChar, coCatch, pushEvent, checkoutFormFilledOf_append, checkoutFormFilledOf]
    case ok cobs =>
      dsimp only
      by_cases hcp : (incl (lowerStr cobs) ("cart") || incl (lowerStr cobs) ("sepet")) = true
      · rw [if_pos hcp]
        cases h3 : env.proceedAct with
        | error m =>
          refine Or.inr ?_
          simp +decide [CoFailChar, coCatch, pushEvent, checkoutFormFilledOf_append, checkoutFormFilledOf]
        | ok v =>
          dsimp only [readUrl, pushEvent]
          exact Or.inl (hmain _ hd ha rfl rfl)
      · rw [if_neg hcp]
        exact Or.inl (hmain _ hd ha rfl rfl)

/-- The checkout stage is skipped when add-to-cart failed or a drop-off is
already recorded. -/
theorem stCheckout_skip (env : AgentEnv) (st : PipeState)
    (h : st.addToCartSuccess = false ∨ st.dropOffStep.isNone = false) :
    stCheckout env st = st := by
  unfold stCheckout
  rcases h with h | h <;> simp [h]
theorem stInit_inr (u : String) (env : AgentEnv) (st : PipeState)
    (h : stInit u env = Sum.inr st) :
    st.findings = [] ∧ st.dropOffStep = none ∧ st.addToCartSuccess = false ∧
    st.checkoutReached = false ∧ st.timeToAddToCart = none ∧
    checkoutFormFilledOf st.timeline = false := by
  unfold stInit at h
  cases hinit : env.initRes <;> rw [hinit] at h
  case error m => simp at h
  case ok =>
    dsimp only at h
    cases hpg : env.pageOk <;> rw [hpg] at h
    · simp at h
    · cases hgoto : env.gotoRes <;> rw [hgoto] at h
      case error m => simp at h
      case ok =>
        rw [if_pos rfl] at h
        dsimp only [readUrl] at h
        rw [Sum.inr.injEq] at h
        subst h
        simp +decide [pushEvent, initialState, checkoutFormFilledOf]

theorem stHomepage_char (env : AgentEnv) (st : PipeState) :
    (∃ fs, (stHomepage env st).findings = st.findings ++ fs ∧
      (∀ f ∈ fs, (f.category = FindingCategory.warning ∨ f.category = FindingCategory.suggestion) ∧
        f.id ≠ "no-products")) ∧
    PreservesCore st (stHomepage env st) := by
  unfold stHomepage
  cases hh : env.homepageExtract
  case error m =>
    exact ⟨⟨[], by simp, by simp⟩, preservesCore_self st⟩
  case ok obs =>
    dsimp only
    constructor
    · exact ⟨homepageFindings (lowerStr obs), by simp [pushEvent], homepageFindings_benign _⟩
    · simp +decide [PreservesCore, pushEvent, checkoutFormFilledOf_append, checkoutFormFilledOf]

theorem benign_filter (fs : List Finding)
    (hben : ∀ f ∈ fs, (f.category = FindingCategory.warning ∨ f.category = FindingCategory.suggestion) ∧
      f.id ≠ "no-products") :
    fs.filter (fun f => f.category == FindingCategory.critical) = [] ∧
    fs.filter (fun f => f.id == ("no-products")) = [] := by
  constructor <;> rw [List.filter_eq_nil_iff] <;> intro f hf
  · rcases (hben f hf).1 with h | h <;> simp [h]
  · simp [(hben f hf).2]

/-- Invariants of every state the stage pipeline can deliver to the scoring
section. -/
theorem pipeline_inv (u : String) (env : AgentEnv) (st : PipeState)
    (h : pipeline u env = Sum.inr st) :
    (st.timeToAddToCart = none ↔ st.addToCartSuccess = false) ∧
    (∀ t : Int, st.timeToAddToCart = some t → 0 ≤ t) ∧
    (checkoutFormFilledOf st.timeline = true → st.dropOffStep = none) ∧
    (st.dropOffStep = some ("product_discovery") →
      st.addToCartSuccess = false ∧ st.checkoutReached = false ∧ st.timeToAddToCart = none ∧
      checkoutFormFilledOf st.timeline = false ∧
      ∃ m, st.findings.filter (fun f => f.category == FindingCategory.critical) = [noProductsFinding m] ∧
        (st.findings.filter (fun f => f.id == ("no-products"))).length = 1) := by
  unfold pipeline at h
  cases hi : stInit u env <;> rw [hi] at h
  case inl c => exact absurd h (by simp)
  case inr st0 =>
    rw [Sum.inr.injEq] at h
    subst h
    obtain ⟨hf0, hd0, ha0, hr0, ht0, hff0⟩ := stInit_inr u env st0 hi
    obtain ⟨⟨fs1, hfs1, hben1⟩, pc1⟩ := stHomepage_char env st0
    obtain ⟨a1c, t1c, r1c, d1c, s1c, f1c⟩ := pc1
    have hd1 : (stHomepage env st0).dropOffStep = none := d1c.trans hd0
    have ha1 : (stHomepage env st0).addToCartSuccess = false := a1c.trans ha0
    have ht1 : (stHomepage env st0).timeToAddToCart = none := t1c.trans ht0
    have hr1 : (stHomepage env st0).checkoutReached = false := r1c.trans hr0
    have hff1 : checkoutFormFilledOf (stHomepage env st0).timeline = false := f1c.trans hff0
    have hfind1 : (stHomepage env st0).findings = fs1 := by rw [hfs1, hf0]; simp
    rcases stPD_char u env (stHomepage env st0) with pc2 | pf2
    · obtain ⟨a2c, t2c, r2c, d2c, s2c, f2c⟩ := pc2
      have hd2 : (stPD u env (stHomepage env st0)).dropOffStep = none := d2c.trans hd1
      have ha2 : (stPD u env (stHomepage env st0)).addToCartSuccess = false := a2c.trans ha1
      have ht2 : (stPD u env (stHomepage env st0)).timeToAddToCart = none := t2c.trans ht1
      have hr2 : (stPD u env (stHomepage env st0)).checkoutReached = false := r2c.trans hr1
      have hff2 : checkoutFormFilledOf (stPD u env (stHomepage env st0)).timeline = false := f2c.trans hff1
      rcases stATC_char env (stPD u env (stHomepage env st0)) hd2 with hok | hfail
      · obtain ⟨v, hv, b1, b2, b3, b4, b5, b6⟩ := hok
        have hd3 : (stATC env (stPD u env (stHomepage env st0))).dropOffStep = none := b3.trans hd2
        have hff3 : checkoutFormFilledOf (stATC env (stPD u env (stHomepage env st0))).timeline = false :=
          b6.trans hff2
        rcases stCheckout_char env (stATC env (stPD u env (stHomepage env st0))) b1 hd3 with hco | hcf
        · obtain ⟨c1, c2, c3, c4, c5⟩ := hco
          refine ⟨?_, ?_, fun _ => c1, ?_⟩
          · rw [c4.trans b2, c3]
            simp
          · intro t ht
            rw [c4.trans b2] at ht
            rw [Option.some.injEq] at ht
            exact ht ▸ hv
          · intro hpd
            rw [c1] at hpd
            exact absurd hpd (by simp)
        · obtain ⟨e1, e2, e3, e4, e5, e6⟩ := hcf
          refine ⟨?_, ?_, ?_, ?_⟩
          · rw [e3.trans b2, e2.trans b1]
            simp
          · intro t ht
            rw [e3.trans b2] at ht
            rw [Option.some.injEq] at ht
            exact ht ▸ hv
          · intro hff
            rw [e6.trans hff3] at hff
            exact absurd hff (by simp)
          · intro hpd
            rw [e1] at hpd
            exact absurd hpd (by simp)
      · obtain ⟨e1, e2, e3, e4, e5, e6⟩ := hfail
        have hskip : stCheckout env (stATC env (stPD u env (stHomepage env st0))) =
            stATC env (stPD u env (stHomepage env st0)) :=
          stCheckout_skip env _ (Or.inr (by rw [e1]; rfl))
        rw [hskip]
        refine ⟨?_, ?_, ?_, ?_⟩
        · rw [e3.trans ht2, e2.trans ha2]
          simp
        · intro t ht
          rw [e3.trans ht2] at ht
          exact absurd ht (by simp)
        · intro hff
          rw [e6.trans hff2] at hff
          exact absurd hff (by simp)
        · intro hpd
          rw [e1] at hpd
          exact absurd hpd (by simp)
    · obtain ⟨m, e1, e2, e3, e4, e5, e6, e7⟩ := pf2
      have hskip3 : stATC env (stPD u env (stHomepage env st0)) = stPD u env (stHomepage env st0) :=
        stATC_skip env _ (by rw [e1]; rfl)
      have hskip4 : stCheckout env (stPD u env (stHomepage env st0)) = stPD u env (stHomepage env st0) :=
        stCheckout_skip env _ (Or.inr (by rw [e1]; rfl))
      rw [hskip3, hskip4]
      have hadd : (stPD u env (stHomepage env st0)).addToCartSuccess = false := e3.trans ha1
      have htime : (stPD u env (stHomepage env st0)).timeToAddToCart = none := e4.trans ht1
      have hreach : (stPD u env (stHomepage env st0)).checkoutReached = false := e5.trans hr1
      have hff : checkoutFormFilledOf (stPD u env (stHomepage env st0)).timeline = false := e7.trans hff1
      obtain ⟨hbc, hbi⟩ := benign_filter fs1 hben1
      refine ⟨?_, ?_, ?_, fun _ => ⟨hadd, hreach, htime, hff, m, ?_, ?_⟩⟩
      · rw [htime, hadd]
        simp
      · intro t ht
        rw [htime] at ht
        exact absurd ht (by simp)
      · intro hx
        rw [hff] at hx
        exact absurd hx (by simp)
      · rw [e2, hfind1]
        simp [List.filter_append, hbc, noProductsFinding]
      · rw [e2, hfind1]
        simp [List.filter_append, hbi, noProductsFinding]
/-! ## Run-level lemmas -/

theorem run_ok_cases (u i : String) (env : AgentEnv) (r : AnalysisResult)
    (h : runAnalysis u i env = Except.ok r) :
    (∃ m tl su, r = failedResult u i m tl su) ∨
    (∃ st, pipeline u env = Sum.inr st ∧ r = completedResult u i st) := by
  unfold runAnalysis runAnalysisFull at h
  cases hc : env.constructRes <;> rw [hc] at h
  case error m => simp at h
  case ok =>
    cases hp : pipeline u env <;> rw [hp] at h
    case inl c =>
      refine Or.inl ⟨c.1, c.2.timeline, c.2.sessionUrl, ?_⟩
      dsimp only at h
      rw [Except.ok.injEq] at h
      exact h.symm
    case inr st =>
      cases hcl : env.closeRes <;> rw [hcl] at h <;> dsimp only at h <;>
        rw [Except.ok.injEq] at h
      case error m => exact Or.inl ⟨m, st.timeline, st.sessionUrl, h.symm⟩
      case ok => exact Or.inr ⟨st, rfl, h.symm⟩

theorem completedResult_status (u i : String) (st : PipeState) :
    (completedResult u i st).status = RunStatus.completed := rfl

theorem failedResult_status (u i m : String) (tl : List TimelineEvent) (su : Option String) :
    (failedResult u i m tl su).status = RunStatus.failed := rfl
/-- State delivered by the pipeline to the scoring section (or the crash
state when the pipeline threw). -/
def pipeEnd (u : String) (env : AgentEnv) : PipeState :=
  match pipeline u env with
  | Sum.inr st => st
  | Sum.inl c => c.2

/-- C1 counterexample: a behaviour in which every stage succeeds, the
state at scoring time has all three funnel flags set and zero
critical/warning/suggestion findings (the scoring formula gives 100), yet
the run returns score 0 with status failed, because the close at source
line 1063 throws after scoring.  This falsifies the claim that every run
reaching scoring returns the formula score, and that such a run scores at
least 80. -/
theorem C1_counterexample :
    (pipeline storeU envCloseBoom).isRight = true ∧
    (pipeEnd storeU envCloseBoom).addToCartSuccess = true ∧
    (pipeEnd storeU envCloseBoom).checkoutReached = true ∧
    checkoutFormFilledOf (pipeEnd storeU envCloseBoom).timeline = true ∧
    countCat FindingCategory.critical (pipeEnd storeU envCloseBoom).findings = 0 ∧
    countCat FindingCategory.warning (pipeEnd storeU envCloseBoom).findings = 0 ∧
    countCat FindingCategory.suggestion (pipeEnd storeU envCloseBoom).findings = 0 ∧
    computeScore (pipeEnd storeU envCloseBoom).addToCartSuccess
      (pipeEnd storeU envCloseBoom).checkoutReached
      (checkoutFormFilledOf (pipeEnd storeU envCloseBoom).timeline)
      (pipeEnd storeU envCloseBoom).findings = 100 ∧
    (theResult storeU runI envCloseBoom).score = 0 ∧
    (theResult storeU runI envCloseBoom).status = RunStatus.failed := by
  decide

/-- C1 (amended): every returned score lies in the interval from 0 to 100;
every run returning status completed (equivalently: reaching scoring with a
succeeding teardown) has score equal to the funnel-completion component
(20 points per flag) plus the UX-quality component (40 minus 15 per
critical, 8 per warning, 5 per suggestion, floored at 0), clamped; and a
completed-status run with every stage done and zero
critical/warning/suggestion findings scores at least 80.  (The unamended
claim fails when the close after scoring throws: the run reached scoring
but returns the failed result with score 0.) -/
theorem C1_score_formula :
    ∀ (u i : String) (env : AgentEnv) (r : AnalysisResult),
      runAnalysis u i env = Except.ok r →
      (0 ≤ r.score ∧ r.score ≤ 100) ∧
      (r.status = RunStatus.completed →
        r.score = scoreSpecModel r.metrics.add_to_cart_success r.metrics.checkout_reached
          r.metrics.checkout_form_filled
          (countCat FindingCategory.critical r.findings)
          (countCat FindingCategory.warning r.findings)
          (countCat FindingCategory.suggestion r.findings)) ∧
      (r.status = RunStatus.completed →
        r.metrics.add_to_cart_success = true → r.metrics.checkout_reached = true →
        r.metrics.checkout_form_filled = true →
        countCat FindingCategory.critical r.findings = 0 →
        countCat FindingCategory.warning r.findings = 0 →
        countCat FindingCategory.suggestion r.findings = 0 →
        80 ≤ r.score) := by
  intro u i env r h
  rcases run_ok_cases u i env r h with ⟨m, tl, su, rfl⟩ | ⟨st, hp, rfl⟩
  · refine ⟨⟨le_refl 0, by simp [failedResult]⟩, ?_, ?_⟩
    · intro hc
      exact absurd hc (by simp [failedResult])
    · intro hc
      exact absurd hc (by simp [failedResult])
  · have e1 : (completedResult u i st).score =
        computeScore st.addToCartSuccess st.checkoutReached (checkoutFormFilledOf st.timeline) st.findings := rfl
    have e2 : (completedResult u i st).findings =
        st.findings ++ positiveFindings st.addToCartSuccess st.timeToAddToCart st.checkoutReached
          (checkoutFormFilledOf st.timeline) := rfl
    have e3 : (completedResult u i st).metrics.add_to_cart_success = st.addToCartSuccess := rfl
    have e4 : (completedResult u i st).metrics.checkout_reached = st.checkoutReached := rfl
    have e5 : (completedResult u i st).metrics.checkout_form_filled = checkoutFormFilledOf st.timeline := rfl
    have hcnt : ∀ cat : FindingCategory, cat ≠ FindingCategory.positive →
        countCat cat (completedResult u i st).findings = countCat cat st.findings := by
      intro cat hcat
      rw [e2, countCat_append,
        countCat_positives cat st.addToCartSuccess st.checkoutReached
          (checkoutFormFilledOf st.timeline) st.timeToAddToCart hcat, Nat.add_zero]
    refine ⟨?_, ?_, ?_⟩
    · rw [e1]
      exact computeScore_bounds _ _ _ _
    · intro _
      rw [e1, e3, e4, e5, hcnt FindingCategory.critical (by decide),
        hcnt FindingCategory.warning (by decide), hcnt FindingCategory.suggestion (by decide)]
      exact computeScore_eq_spec _ _ _ _
    · intro _ hA hB hC n1 n2 n3
      rw [e3] at hA
      rw [e4] at hB
      rw [e5] at hC
      rw [hcnt FindingCategory.critical (by decide)] at n1
      rw [hcnt FindingCategory.warning (by decide)] at n2
      rw [hcnt FindingCategory.suggestion (by decide)] at n3
      rw [e1, computeScore_eq_spec, hA, hB, hC, n1, n2, n3]
      norm_num [scoreSpecModel]

/-- C1 witness: the fully successful behaviour scores at least 80. -/
theorem C1_score_formula_witness :
    80 ≤ (theResult storeU runI envHappy).score :=
  (C1_score_formula storeU runI envHappy (theResult storeU runI envHappy) (by rfl)).2.2
    (by rfl) (by rfl) (by rfl) (by rfl) (by decide) (by decide) (by decide)
/-- C2 counterexample: a behaviour in which the run reaches checkout but
the form-filling stage throws (caught locally as a checkout-form-issues
warning).  The returned result is completed with drop_off_step null and
checkout_form_filled false, refuting the claimed equivalence that
drop_off_step is non-null exactly when checkout_form_filled is false. -/
theorem C2_counterexample :
    runAnalysis storeU runI envFormBoom = Except.ok (theResult storeU runI envFormBoom) ∧
    ((theResult storeU runI envFormBoom).status = RunStatus.completed ∧
     (theResult storeU runI envFormBoom).metrics.drop_off_step = none ∧
     (theResult storeU runI envFormBoom).metrics.checkout_form_filled = false ∧
     ¬ ((theResult storeU runI envFormBoom).metrics.drop_off_step ≠ none ↔
        (theResult storeU runI envFormBoom).metrics.checkout_form_filled = false)) :=
  ⟨rfl, by decide⟩

/-- C2 (amended): in every returned result a non-null drop_off_step implies
checkout_form_filled is false (hence a fully successful run, whose
checkout_form_filled is true, never has drop_off_step set), and in every
completed result checkout_form_filled is derived from the timeline by
checking for an action containing the text Filled checkout form.  The
converse of the first implication fails: a form-filling exception leaves
drop_off_step null with checkout_form_filled false. -/
theorem C2_dropoff_formfill :
    ∀ (u i : String) (env : AgentEnv) (r : AnalysisResult),
      runAnalysis u i env = Except.ok r →
      (r.metrics.drop_off_step ≠ none → r.metrics.checkout_form_filled = false) ∧
      (r.metrics.checkout_form_filled = true → r.metrics.drop_off_step = none) ∧
      (r.status = RunStatus.completed →
        r.metrics.checkout_form_filled = checkoutFormFilledOf r.timeline) := by
  intro u i env r h
  rcases run_ok_cases u i env r h with ⟨m, tl, su, rfl⟩ | ⟨st, hp, rfl⟩
  · refine ⟨fun _ => rfl, ?_, ?_⟩
    · intro hc
      exact absurd hc (by simp [failedResult])
    · intro hc
      exact absurd hc (by simp [failedResult])
  · obtain ⟨hi1, hi2, hi3, hi4⟩ := pipeline_inv u env st hp
    have e5 : (completedResult u i st).metrics.checkout_form_filled = checkoutFormFilledOf st.timeline := rfl
    have e6 : (completedResult u i st).metrics.drop_off_step = st.dropOffStep := rfl
    refine ⟨?_, ?_, fun _ => rfl⟩
    · intro hne
      rw [e5]
      cases hb : checkoutFormFilledOf st.timeline
      · rfl
      · exact absurd (e6.trans (hi3 hb)) hne
    · intro hc
      rw [e5] at hc
      exact e6.trans (hi3 hc)

/-- C2 witness: on the fully successful behaviour the completed result has
its form-filled flag derived from the timeline and no drop-off step. -/
theorem C2_dropoff_formfill_witness :
    (theResult storeU runI envHappy).metrics.checkout_form_filled =
      checkoutFormFilledOf (theResult storeU runI envHappy).timeline ∧
    (theResult storeU runI envHappy).metrics.drop_off_step = none :=
  ⟨(C2_dropoff_formfill storeU runI envHappy (theResult storeU runI envHappy) (by rfl)).2.2 (by rfl),
   (C2_dropoff_formfill storeU runI envHappy (theResult storeU runI envHappy) (by rfl)).2.1 (by rfl)⟩

/-- C3 counterexample: when the dynamic import or the Stagehand constructor
throws (these sit outside the try block, source lines 49-56), the exception
escapes runAnalysis: the promise rejects instead of returning a result. -/
theorem C3_counterexample :
    runAnalysis storeU runI envConstructBoom = Except.error ("module load failed") := rfl

/-- C3 (amended): provided the dynamic import and the Stagehand constructor
succeed, runAnalysis never throws: for every behaviour of initialization,
act and extract calls and close, it returns an AnalysisResult, with error
and findings populated whenever the run failed.  (The unamended claim also
quantified over construction throwing, which escapes the function.) -/
theorem C3_no_throw :
    ∀ (u i : String) (env : AgentEnv), env.constructRes = Except.ok () →
      ∃ r, runAnalysis u i env = Except.ok r ∧
        (r.status = RunStatus.failed → r.error ≠ none ∧ r.findings ≠ []) := by
  intro u i env hc
  unfold runAnalysis runAnalysisFull
  rw [hc]
  dsimp only
  cases hp : pipeline u env
  case inl c =>
    refine ⟨_, rfl, fun _ => ?_⟩
    constructor <;> simp [failedResult]
  case inr st =>
    cases hcl : env.closeRes
    case ok v =>
      refine ⟨_, rfl, fun hst => absurd hst ?_⟩
      simp [completedResult]
    case error m =>
      refine ⟨_, rfl, fun _ => ?_⟩
      constructor <;> simp [failedResult]

/-- C3 witness: the fully successful behaviour returns a result. -/
theorem C3_no_throw_witness :
    ∃ r, runAnalysis storeU runI envHappy = Except.ok r ∧
      (r.status = RunStatus.failed → r.error ≠ none ∧ r.findings ≠ []) :=
  C3_no_throw storeU runI envHappy rfl

/-- C4: the cart-success decision of source lines 477-481, stated over the
lowercased stringified cart observation: hasItems holds exactly when none
of the four negative patterns (the quoted zero of the stringified
observation, then 0 item, empty, no item) occurs and at least one positive
pattern (1, item, added, eklendi, success) occurs; the two scenario
observations classify as not-added and added respectively. -/
theorem C4_cart_success_heuristic :
    (∀ s : String, hasItemsDecision s = true ↔
      ((¬ Contains s ("\"0\"")) ∧ (¬ Contains s ("0 item")) ∧ (¬ Contains s ("empty")) ∧
        (¬ Contains s ("no item")) ∧
        (Contains s ("1") ∨ Contains s ("item") ∨ Contains s ("added") ∨ Contains s ("eklendi") ∨
          Contains s ("success")))) ∧
    hasItemsDecision (lowerStr (jsonQuote ("cart icon shows 0 items, no success message"))) = false ∧
    hasItemsDecision (lowerStr (jsonQuote ("cart icon shows 1 item, sepete eklendi"))) = true := by
  refine ⟨?_, by decide, by decide⟩
  intro s
  simp [hasItemsDecision, Contains, and_assoc, or_assoc]

/-- C5 counterexample: the Scenario A observation, once stringified and
lowercased, mentions the text search bar, so the exclusion clause of the
homepage-no-search rule fires and no homepage-no-search finding is
produced, contrary to the claim. -/
theorem C5_counterexample :
    (homepageFindings (lowerStr (jsonQuote ("no search bar visible, navigation is clear")))).any
      (fun f => f.id == ("homepage-no-search")) = false := by
  decide

/-- C5 (amended): classifying the Scenario A observation with the homepage
rule set yields no homepage-no-search finding (the observation mentions
search bar, which the rule excludes) and no homepage-navigation-unclear
finding. -/
theorem C5_scenarioA :
    (homepageFindings (lowerStr (jsonQuote ("no search bar visible, navigation is clear")))).filter
      (fun f => f.id == ("homepage-no-search")) = [] ∧
    (homepageFindings (lowerStr (jsonQuote ("no search bar visible, navigation is clear")))).filter
      (fun f => f.id == ("homepage-navigation-unclear")) = [] := by
  decide
/-- C6: if session initialization throws, runAnalysis returns the failed
result with score 0, all metrics false or null, drop_off_step
initialization, exactly the single critical analysis-failed finding, an
empty timeline and a populated error; and more generally every failed
result (every exception escaping the stage pipeline) has exactly this
shape. -/
theorem C6_init_failure :
    (∀ (u i m : String) (env : AgentEnv), env.constructRes = Except.ok () →
      env.initRes = Except.error m →
      runAnalysis u i env = Except.ok (failedResult u i m [] none)) ∧
    (∀ (u i : String) (env : AgentEnv) (r : AnalysisResult),
      runAnalysis u i env = Except.ok r → r.status = RunStatus.failed →
      ∃ m, r.score = 0 ∧ r.metrics.add_to_cart_success = false ∧
        r.metrics.time_to_add_to_cart_seconds = none ∧ r.metrics.checkout_reached = false ∧
        r.metrics.checkout_form_filled = false ∧ r.metrics.drop_off_step = some ("initialization") ∧
        r.findings = [analysisFailedFinding m] ∧ r.error = some m) := by
  constructor
  · intro u i m env hc hi
    unfold runAnalysis runAnalysisFull pipeline stInit
    rw [hc, hi]
    rfl
  · intro u i env r h hst
    rcases run_ok_cases u i env r h with ⟨m, tl, su, rfl⟩ | ⟨st, hp, rfl⟩
    · exact ⟨m, rfl, rfl, rfl, rfl, rfl, rfl, rfl, rfl⟩
    · exact absurd hst (by simp [completedResult])

/-- C6 witness: a concrete behaviour whose initialization throws. -/
theorem C6_init_failure_witness :
    runAnalysis storeU runI envInitBoom = Except.ok (failedResult storeU runI ("init failed") [] none) :=
  C6_init_failure.1 storeU runI ("init failed") envInitBoom rfl rfl

/-- C7: a run whose product discovery failed (drop_off_step
product_discovery) still returns status completed with
add_to_cart_success false, its critical findings are exactly the one
no-products finding, and exactly one finding carries the id no-products;
and a result whose drop_off_step is any stage label (product_discovery,
add_to_cart, checkout_navigation) always has status completed. -/
theorem C7_stage_dropoff :
    ∀ (u i : String) (env : AgentEnv) (r : AnalysisResult),
      runAnalysis u i env = Except.ok r →
      (r.metrics.drop_off_step = some ("product_discovery") →
        r.status = RunStatus.completed ∧ r.metrics.add_to_cart_success = false ∧
        (∃ m, r.findings.filter (fun f => f.category == FindingCategory.critical) =
          [noProductsFinding m]) ∧
        (r.findings.filter (fun f => f.id == ("no-products"))).length = 1) ∧
      ((r.metrics.drop_off_step = some ("product_discovery") ∨
        r.metrics.drop_off_step = some ("add_to_cart") ∨
        r.metrics.drop_off_step = some ("checkout_navigation")) →
        r.status = RunStatus.completed) := by
  intro u i env r h
  rcases run_ok_cases u i env r h with ⟨m, tl, su, rfl⟩ | ⟨st, hp, rfl⟩
  · constructor
    · intro hpd
      have : (failedResult u i m tl su).metrics.drop_off_step = some ("initialization") := rfl
      rw [this] at hpd
      exact absurd hpd (by decide)
    · intro hpd
      have : (failedResult u i m tl su).metrics.drop_off_step = some ("initialization") := rfl
      rw [this] at hpd
      rcases hpd with hx | hx | hx <;> exact absurd hx (by decide)
  · refine ⟨?_, fun _ => rfl⟩
    intro hpd
    have hdrop : st.dropOffStep = some ("product_discovery") := hpd
    obtain ⟨hi1, hi2, hi3, hi4⟩ := pipeline_inv u env st hp
    obtain ⟨hadd, hreach, htime, hff, m, hfc, hfi⟩ := hi4 hdrop
    have hfeq : (completedResult u i st).findings = st.findings := by
      show st.findings ++ positiveFindings st.addToCartSuccess st.timeToAddToCart st.checkoutReached
        (checkoutFormFilledOf st.timeline) = st.findings
      rw [hadd, htime, hreach, hff]
      simp [positiveFindings]
    refine ⟨rfl, hadd, ⟨m, ?_⟩, ?_⟩
    · rw [hfeq]
      exact hfc
    · rw [hfeq]
      exact hfi

/-- C7 witness: a behaviour whose product click throws. -/
theorem C7_stage_dropoff_witness :
    (theResult storeU runI envPdBoom).status = RunStatus.completed ∧
    (theResult storeU runI envPdBoom).metrics.add_to_cart_success = false ∧
    (∃ m, (theResult storeU runI envPdBoom).findings.filter
      (fun f => f.category == FindingCategory.critical) = [noProductsFinding m]) ∧
    ((theResult storeU runI envPdBoom).findings.filter
      (fun f => f.id == ("no-products"))).length = 1 :=
  (C7_stage_dropoff storeU runI envPdBoom (theResult storeU runI envPdBoom) (by rfl)).1 (by rfl)

/-- C8: in every returned result, time_to_add_to_cart_seconds is non-null
exactly when add_to_cart_success is true, and is non-negative when
non-null (the wall clock being modelled as non-decreasing). -/
theorem C8_time_iff :
    ∀ (u i : String) (env : AgentEnv) (r : AnalysisResult),
      runAnalysis u i env = Except.ok r →
      (r.metrics.time_to_add_to_cart_seconds ≠ none ↔ r.metrics.add_to_cart_success = true) ∧
      (∀ t : Int, r.metrics.time_to_add_to_cart_seconds = some t → 0 ≤ t) := by
  intro u i env r h
  rcases run_ok_cases u i env r h with ⟨m, tl, su, rfl⟩ | ⟨st, hp, rfl⟩
  · constructor
    · constructor
      · intro hc
        exact absurd rfl hc
      · intro hc
        exact absurd hc (by simp [failedResult])
    · intro t ht
      exact absurd ht (by simp [failedResult])
  · obtain ⟨hi1, hi2, hi3, hi4⟩ := pipeline_inv u env st hp
    have e1 : (completedResult u i st).metrics.time_to_add_to_cart_seconds = st.timeToAddToCart := rfl
    have e2 : (completedResult u i st).metrics.add_to_cart_success = st.addToCartSuccess := rfl
    constructor
    · rw [e1, e2]
      constructor
      · intro hne
        cases hb : st.addToCartSuccess
        · exact absurd (hi1.mpr hb) hne
        · rfl
      · intro htr
        intro hnone
        have := hi1.mp hnone
        rw [htr] at this
        exact absurd this (by simp)
    · intro t ht
      rw [e1] at ht
      exact hi2 t ht

/-- C8 witness: the fully successful behaviour has a non-null,
non-negative time. -/
theorem C8_time_iff_witness :
    ((theResult storeU runI envHappy).metrics.time_to_add_to_cart_seconds ≠ none) ∧
    (0 ≤ (5 : Int)) :=
  ⟨(C8_time_iff storeU runI envHappy (theResult storeU runI envHappy) (by rfl)).1.mpr (by rfl),
   (C8_time_iff storeU runI envHappy (theResult storeU runI envHappy) (by rfl)).2 5 (by rfl)⟩

/-- C9: the source violates the single-release contract.  When every stage
succeeds and the close at source line 1063 throws, the close is invoked a
second time by the catch handler, and the outcome flips from completed to
failed with score 0; the identical behaviour with a succeeding close
returns completed with one close invocation. -/
theorem C9_close_behaviour :
    (runAnalysisFull storeU runI envCloseBoom).2 = 2 ∧
    (theResult storeU runI envCloseBoom).status = RunStatus.failed ∧
    (theResult storeU runI envCloseBoom).score = 0 ∧
    (runAnalysisFull storeU runI envHappy).2 = 1 ∧
    (theResult storeU runI envHappy).status = RunStatus.completed := by
  decide

/-- C10: whenever an exception escapes the stage pipeline, and likewise
when the post-scoring close throws after every stage succeeded, the failed
result carries drop_off_step initialization and all funnel metrics false
or null (the failedResult shape discards the stage progress), while the
timeline accumulated before the failure is returned unchanged; on the
concrete behaviour where every stage succeeded and close threw, the
returned timeline still contains the Added product to cart event while
add_to_cart_success is reported false. -/
theorem C10_crash_discards_metrics :
    (∀ (u i m : String) (env : AgentEnv) (st : PipeState),
      env.constructRes = Except.ok () → pipeline u env = Sum.inl (m, st) →
      runAnalysis u i env = Except.ok (failedResult u i m st.timeline st.sessionUrl)) ∧
    (∀ (u i m : String) (env : AgentEnv) (st : PipeState),
      env.constructRes = Except.ok () → pipeline u env = Sum.inr st →
      env.closeRes = Except.error m →
      runAnalysis u i env = Except.ok (failedResult u i m st.timeline st.sessionUrl)) ∧
    ((theResult storeU runI envCloseBoom).metrics.add_to_cart_success = false ∧
     (theResult storeU runI envCloseBoom).metrics.checkout_reached = false ∧
     (theResult storeU runI envCloseBoom).metrics.time_to_add_to_cart_seconds = none ∧
     (theResult storeU runI envCloseBoom).metrics.drop_off_step = some ("initialization") ∧
     (theResult storeU runI envCloseBoom).timeline.any
       (fun e => e.action == ("Added product to cart")) = true ∧
     (theResult storeU runI envCloseBoom).timeline ≠ []) := by
  refine ⟨?_, ?_, by decide⟩
  · intro u i m env st hc hp
    unfold runAnalysis runAnalysisFull
    rw [hc, hp]
  · intro u i m env st hc hp hcl
    unfold runAnalysis runAnalysisFull
    rw [hc, hp, hcl]

/-- C10 witness: the close-throwing behaviour returns the failed result
built from the crash-time timeline and session url. -/
theorem C10_crash_witness :
    runAnalysis storeU runI envCloseBoom =
      Except.ok (failedResult storeU runI ("close failed")
        (pipeEnd storeU envCloseBoom).timeline (pipeEnd storeU envCloseBoom).sessionUrl) :=
  C10_crash_discards_metrics.2.1 storeU runI ("close failed") envCloseBoom
    (pipeEnd storeU envCloseBoom) rfl (by rfl) rfl
